import Mathlib

/-!
# Verification of the PatientPal orchestration core

A shallow embedding of `utils/orchestrator.py`, `utils/memory.py` and the
parts of `utils/agent_base.py` and `utils/prompts.py` that the orchestrator
uses, together with theorems settling the specification claims about it.

Modelling conventions:
* Python strings are Lean `String`s; the regex patterns used by the routing
  parser are implemented directly as specialised searchers (the patterns are
  all of the two forms `LIT:\s*(.+)` and `LIT:\s*(w1|w2|...)`) with Python's
  leftmost-match-with-backtracking semantics.
* Python `float` is modelled as `ℚ`.  Wall-clock durations
  (`processing_time`, timestamps) are not observable in a pure embedding and
  are modelled as `0`; no claim depends on them.
* Exceptions are modelled with `Except String`; the message carried is the
  Python `str(e)` of the raised exception.
* The behaviour of the external collaborators (the registered specialist
  agents and the `ChatOpenAI` language model) is a parameter `Env`; an agent
  raising, or `llm.invoke` raising, is the corresponding `Except.error`.
* The orchestrator's mutable state (the `ThreeTierMemory`, each agent's
  `_is_initialized` flag, and an instrumentation counter of language-model
  invocations used to state the "no LLM call" claims) is threaded explicitly
  as `OrchState`.
* Pydantic validation that can actually fire (the `ge=0, le=1` bound on
  `AgentConsultation.confidence` and `ge=0` on its `processing_time`) is
  modelled as an explicit check raising `Except.error`; validations that are
  unreachable on the modelled paths are noted where they occur.
-/

namespace PatientPal

/-- Python's `\s` character class (the ASCII whitespace characters; the rare
additional Unicode whitespace accepted by Python's `re` plays no role in any
claim). -/
def isPySpace (c : Char) : Bool :=
  c = ' ' || c = '\t' || c = '\n' || c = '\r' || c = '\x0b' || c = '\x0c'

/-- `charsStart pat s` : does `s` start with `pat` (character-exact)? -/
def charsStart : List Char → List Char → Bool
  | [], _ => true
  | _ :: _, [] => false
  | a :: as, b :: bs => a == b && charsStart as bs

/-- `listContains sub s` : does `sub` occur contiguously inside `s`?
Model of Python's `sub in s` on strings. -/
def listContains (sub : List Char) : List Char → Bool
  | [] => sub.isEmpty
  | c :: cs => charsStart sub (c :: cs) || listContains sub cs

/-- Python `sub in s` for strings. -/
def strContains (s sub : String) : Bool :=
  listContains sub.toList s.toList

/-- Character-wise lowercasing, model of Python `str.lower` (ASCII-faithful). -/
def lowerChars (l : List Char) : List Char := l.map Char.toLower

/-- Python `str.strip()` on a character list. -/
def stripChars (l : List Char) : List Char :=
  ((l.dropWhile isPySpace).reverse.dropWhile isPySpace).reverse

/-- Python `str.strip()`. -/
def pyStrip (s : String) : String := String.mk (stripChars s.toList)

/-- Python `str.lower()` (ASCII-faithful, character-wise). -/
def pyLower (s : String) : String := String.mk (lowerChars s.toList)

/-- Python `s.split(",")` on a character list: split at every comma, keeping
empty pieces (`"".split(",") == [""]`). -/
def splitOnCommaChars : List Char → List (List Char)
  | [] => [[]]
  | c :: rest =>
    if c = ',' then [] :: splitOnCommaChars rest
    else
      match splitOnCommaChars rest with
      | [] => [[c]]
      | p :: ps => (c :: p) :: ps

/-- Python `s.split(",")`. -/
def pySplitComma (s : String) : List String := (splitOnCommaChars s.toList).map String.mk

/-- A Python value as it occurs in the context dictionaries and metadata of
the orchestration core: strings, numbers, booleans and lists of strings are
the shapes the code reads or writes. -/
inductive PyVal where
  | vStr (s : String)
  | vNum (q : ℚ)
  | vBool (b : Bool)
  | vStrList (l : List String)
deriving DecidableEq

/-- Python truthiness of a `PyVal` (`if context.get(k):`). -/
def PyVal.truthy : PyVal → Bool
  | .vStr s => !(s = "")
  | .vNum q => !(q = 0)
  | .vBool b => b
  | .vStrList l => !l.isEmpty

/-- Python `str(v)` as used by f-string interpolation of a context value.
(The decimal rendering of numbers is immaterial to every claim: the string
only ever feeds the universally quantified language-model oracle.) -/
def PyVal.pyStr : PyVal → String
  | .vStr s => s
  | .vNum q => toString q
  | .vBool b => if b then "True" else "False"
  | .vStrList l => "[" ++ String.intercalate ", " (l.map (fun s => "'" ++ s ++ "'")) ++ "]"

/-- A Python `dict` with string keys, as an insertion-ordered association
list (a genuine `dict` has no duplicate keys; theorems that need this add a
`Nodup` hypothesis on the caller-supplied dictionary). -/
abbrev Ctx := List (String × PyVal)

/-- Python `d[k] = v`: replace the (at most one) existing binding of the key
in place, preserving its position, else append at the end — dict assignment
semantics on an insertion-ordered representation. -/
def ctxSet : Ctx → String → PyVal → Ctx
  | [], k, v => [(k, v)]
  | kv :: rest, k, v => if kv.1 = k then (k, v) :: rest else kv :: ctxSet rest k v

/-- Python `d.get(k)` / `k in d` lookup. -/
def ctxGet (c : Ctx) (k : String) : Option PyVal :=
  (c.find? (fun kv => kv.1 = k)).map (fun kv => kv.2)

/-- `d.get(k)` is truthy (`if context.get("has_image"):`). -/
def ctxTruthy (c : Ctx) (k : String) : Bool :=
  match ctxGet c k with
  | none => false
  | some v => v.truthy

/-- `AgentResponse` (utils/agent_base.py): the standardized response of a
specialist agent.  `timestamp` is wall-clock and not modelled. -/
structure AgentResponse where
  agent_name : String
  input_query : String
  output : String
  confidence : ℚ
  metadata : Ctx
  error : Option String
  processing_time : ℚ
deriving DecidableEq

/-- The `execution_mode` literal of a `RoutingDecision`. -/
inductive ExecMode where
  | single
  | parallel
  | sequential
deriving DecidableEq

/-- String form of an execution mode, as stored in Tier-3 events. -/
def ExecMode.str : ExecMode → String
  | .single => "single"
  | .parallel => "parallel"
  | .sequential => "sequential"

/-- The `urgency_level` literal of a `RoutingDecision`. -/
inductive Urgency where
  | emergency
  | urgent
  | routine
deriving DecidableEq

/-- `RoutingDecision` (utils/orchestrator.py).  `timestamp` is wall-clock and
not modelled. -/
structure RoutingDecision where
  query : String
  primary_agent : String
  additional_agents : List String
  execution_mode : ExecMode
  requires_image : Bool
  urgency_level : Urgency
  medical_domain : Option String
  reasoning : String
  confidence : ℚ
  safety_flags : List String
deriving DecidableEq

/-- `OrchestratedResponse` (utils/orchestrator.py).  `processing_time` and
timestamps are wall-clock and not modelled; in the error path the source's
`metadata["error_type"]` holds the Python exception class name, which the
embedding does not track and renders as `"Exception"`. -/
structure OrchestratedResponse where
  query : String
  routing_decision : RoutingDecision
  agent_responses : List AgentResponse
  synthesized_output : String
  confidence : ℚ
  agents_consulted : List String
  metadata : Ctx
  error : Option String
deriving DecidableEq

/-- Tier-1 `Message` (utils/memory.py). -/
structure Message where
  role : String
  content : String
  metadata : Ctx
deriving DecidableEq

/-- Tier-2 `AgentConsultation` (utils/memory.py). -/
structure AgentConsultation where
  agent_name : String
  query : String
  response : String
  confidence : ℚ
  processing_time : ℚ
  metadata : Ctx
deriving DecidableEq

/-- Tier-3 `OrchestrationEvent` (utils/memory.py).  The source stores
`routing_decision.dict()`; the embedding stores the decision value itself
(the dict is a faithful snapshot of it). -/
structure OrchestrationEvent where
  query : String
  routing_decision : RoutingDecision
  agents_consulted : List String
  execution_mode : String
  total_processing_time : ℚ
  success : Bool
  error : Option String
deriving DecidableEq

/-- `ThreeTierMemory` (utils/memory.py). -/
structure ThreeTierMemory where
  conversation_history : List Message
  agent_consultations : List (String × List AgentConsultation)
  orchestration_log : List OrchestrationEvent
deriving DecidableEq

/-- `ThreeTierMemory()`: all tiers empty. -/
def ThreeTierMemory.init : ThreeTierMemory := ⟨[], [], []⟩

/-- `add_user_message` (Tier 1). -/
def add_user_message (m : ThreeTierMemory) (content : String) : ThreeTierMemory :=
  { m with conversation_history := m.conversation_history ++ [⟨"user", content, []⟩] }

/-- `add_assistant_message` (Tier 1). -/
def add_assistant_message (m : ThreeTierMemory) (content : String) : ThreeTierMemory :=
  { m with conversation_history := m.conversation_history ++ [⟨"assistant", content, []⟩] }

/-- `clear_conversation` (Tier 1 only). -/
def clear_conversation (m : ThreeTierMemory) : ThreeTierMemory :=
  { m with conversation_history := [] }

/-- Grouped append into the Tier-2 dict: `if name not in d: d[name] = []`
then `d[name].append(c)`. -/
def appendConsultation (l : List (String × List AgentConsultation)) (name : String)
    (c : AgentConsultation) : List (String × List AgentConsultation) :=
  if l.any (fun kv => kv.1 = name) then
    l.map (fun kv => if kv.1 = name then (kv.1, kv.2 ++ [c]) else kv)
  else l ++ [(name, [c])]

/-- `log_agent_consultation` (Tier 2).  Constructing the Pydantic
`AgentConsultation` validates `0 ≤ confidence ≤ 1` and `0 ≤ processing_time`
and raises `ValidationError` otherwise; that check is modelled explicitly. -/
def log_agent_consultation (m : ThreeTierMemory) (agent_name query response : String)
    (confidence processing_time : ℚ) (metadata : Ctx) : Except String ThreeTierMemory :=
  let consultation : AgentConsultation :=
    ⟨agent_name, query, response, confidence, processing_time, metadata⟩
  if 0 ≤ confidence ∧ confidence ≤ 1 ∧ 0 ≤ processing_time then
    .ok { m with agent_consultations :=
            appendConsultation m.agent_consultations agent_name consultation }
  else .error "validation error for AgentConsultation"

/-- `log_orchestration_event` (Tier 3).  The `total_processing_time ≥ 0`
Pydantic bound always holds for the elapsed times the orchestrator passes
(modelled as `0`), so the construction is total. -/
def log_orchestration_event (m : ThreeTierMemory) (query : String)
    (routing_decision : RoutingDecision) (agents_consulted : List String)
    (execution_mode : String) (total_processing_time : ℚ) (success : Bool)
    (error : Option String) : ThreeTierMemory :=
  let event : OrchestrationEvent :=
    ⟨query, routing_decision, agents_consulted, execution_mode,
      total_processing_time, success, error⟩
  { m with orchestration_log := m.orchestration_log ++ [event] }

deriving instance DecidableEq for Except

/-- The behaviour of one registered specialist agent as the orchestrator sees
it (utils/agent_base.py): the result of `initialize()`, the `validate_input`
gate, and `process`.  `process` returning `Except.error e` models the agent
raising an exception whose `str` is `e`; a successful `initialize()` sets the
agent's `_is_initialized` flag (as every concrete agent in agents/ does). -/
structure AgentSpec where
  initOk : Bool
  validate : String → Option Ctx → Bool
  process : String → Option Ctx → Except String AgentResponse

/-- The external collaborators of `LeadAgentOrchestrator`: the read-only
`agents` registry (`{agent_name: agent_instance}`) and the `ChatOpenAI`
oracle, where `llm p = .error e` models `llm.invoke(p)` raising. -/
structure Env where
  agents : List (String × AgentSpec)
  llm : String → Except String String

/-- The orchestrator's mutable state: the three-tier memory, the set of
agent names whose `_is_initialized` flag is `True`, and an instrumentation
counter of `llm.invoke` calls (used to state the claims that certain paths
make no language-model call). -/
structure OrchState where
  memory : ThreeTierMemory
  initFlags : List String
  llmCalls : Nat

/-- A freshly constructed orchestrator: empty memory, no agent initialized. -/
def OrchState.init : OrchState := ⟨ThreeTierMemory.init, [], 0⟩

/-- `self.llm.invoke(prompt)`, bumping the instrumentation counter. -/
def llmInvoke (env : Env) (st : OrchState) (prompt : String) :
    Except String String × OrchState :=
  (env.llm prompt, { st with llmCalls := st.llmCalls + 1 })

/-- The fixed emergency keyword list of `LeadAgentOrchestrator.__init__`. -/
def emergency_keywords : List String :=
  ["chest pain", "can't breathe", "difficulty breathing",
   "unconscious", "seizure", "stroke", "severe bleeding",
   "choking", "heart attack", "anaphylaxis", "can't move",
   "severe headache", "crushing chest", "shortness of breath"]

/-- Result of `check_safety`. -/
structure SafetyResult where
  is_emergency : Bool
  flags : List String
  urgency : String
deriving DecidableEq

/-- `check_safety` (utils/orchestrator.py): case-insensitive substring scan
of the query against the fixed emergency keyword list. -/
def check_safety (query : String) : SafetyResult :=
  let query_lower := pyLower query
  let detected_flags := emergency_keywords.filter (fun k => strContains query_lower k)
  { is_emergency := !detected_flags.isEmpty
    flags := detected_flags
    urgency := if !detected_flags.isEmpty then "emergency" else "routine" }

/-- The context-description string built inside `analyze_query` (an empty or
absent context dict is falsy in Python, hence the default string). -/
def contextStr (context : Option Ctx) : String :=
  match context with
  | none => "No additional context provided."
  | some c =>
    if c.isEmpty then "No additional context provided."
    else
      let context_parts : List String :=
        (if ctxTruthy c "has_image" then ["User has uploaded an image"] else []) ++
        (if ctxTruthy c "image_type" then
          ["Image type: " ++ ((ctxGet c "image_type").map PyVal.pyStr).getD ""] else []) ++
        (if ctxTruthy c "patient_data" then ["Patient context data available"] else [])
      if context_parts.isEmpty then "No additional context provided."
      else String.intercalate ", " context_parts

/-- `ROUTER_PROMPT.format(query=..., context=..., available_agents=...)`
(utils/prompts.py), with the three format holes spliced in place. -/
def routerPrompt (query context available_agents : String) : String :=
  String.intercalate "\n"
    ["You are an intelligent medical query router analyzing user queries to determine the most appropriate specialist agent(s).",
     "",
     "AVAILABLE SPECIALIST AGENTS:",
     "",
     "1. **MedGemma Agent** - General medical queries",
     "   - Capabilities: General medical questions, symptom analysis, medical education, health information, disease information",
     "   - Use for: General health questions, non-specialist medical queries, symptom descriptions",
     "   - Examples: \"What causes high blood pressure?\", \"Explain diabetes symptoms\", \"What is pneumonia?\"",
     "",
     "2. **TxGemma Agent** - Treatment and medication guidance",
     "   - Capabilities: Treatment recommendations, medication information, therapy options, drug interactions, dosage guidance",
     "   - Use for: Treatment plans, medication queries, therapeutic interventions",
     "   - Examples: \"Treatment options for hypertension\", \"How does metformin work?\", \"Side effects of antibiotics\"",
     "",
     "3. **Derm Foundation Agent** - Dermatological analysis (REQUIRES IMAGE)",
     "   - Capabilities: Skin lesion analysis, dermatological condition detection, melanoma screening, rash assessment",
     "   - Use for: Skin rashes, lesions, moles, dermatological concerns",
     "   - Examples: \"Analyze this skin lesion\", \"What is this rash?\", \"Is this mole concerning?\"",
     "   - ⚠️ ONLY select if user explicitly mentions uploading/analyzing an image or has image context",
     "",
     "4. **CXR Foundation Agent** - Chest X-ray analysis (REQUIRES IMAGE)",
     "   - Capabilities: Chest X-ray interpretation, lung condition detection, cardiac assessment, pneumonia detection",
     "   - Use for: Chest X-ray analysis, lung imaging, thoracic radiology",
     "   - Examples: \"Analyze this chest X-ray\", \"What does this CXR show?\", \"Interpret this lung X-ray\"",
     "   - ⚠️ ONLY select if user explicitly mentions uploading/analyzing an X-ray image or has image context",
     "",
     "5. **Pathology Agent** - Pathology and histology analysis",
     "   - Capabilities: Histopathology analysis, biopsy interpretation, tissue examination, pathology report review",
     "   - Use for: Pathology reports, biopsy results, tissue analysis, histological questions",
     "   - Examples: \"Interpret this pathology report\", \"What does this biopsy show?\", \"Explain histology findings\"",
     "",
     "ROUTING DECISION RULES:",
     "1. **Single Agent**: Most queries need only ONE agent",
     "2. **Multi-Agent (Parallel)**: If query spans multiple domains (e.g., \"chest pain AND rash\")",
     "3. **Multi-Agent (Sequential)**: If query requires pipeline (e.g., \"analyze X-ray THEN recommend treatment\")",
     "4. **Image Required**: Derm and CXR agents REQUIRE images - if no image mentioned, do NOT select them",
     "5. **Default**: When uncertain, default to MedGemma (general agent)",
     "6. **Urgency Detection**: Flag emergency keywords for safety escalation",
     "",
     "EMERGENCY KEYWORDS (flag as urgent):",
     "- chest pain, difficulty breathing, unconscious, seizure, stroke, severe bleeding, anaphylaxis, choking",
     "",
     "USER QUERY: " ++ query,
     "",
     "CONTEXT: " ++ context,
     "",
     "AVAILABLE AGENTS: " ++ available_agents,
     "",
     "OUTPUT FORMAT (respond with ONLY these fields):",
     "",
     "SELECTED_AGENT: [Primary agent name from list above]",
     "ADDITIONAL_AGENTS: [Comma-separated list of additional agents if multi-agent needed, or \"None\"]",
     "EXECUTION_MODE: [single, parallel, or sequential]",
     "REQUIRES_IMAGE: [Yes or No]",
     "URGENCY: [emergency, urgent, or routine]",
     "CONFIDENCE: [High, Medium, or Low]",
     "REASONING: [One sentence explaining why this routing was chosen]",
     "",
     "Example Output:",
     "SELECTED_AGENT: MedGemma",
     "ADDITIONAL_AGENTS: None",
     "EXECUTION_MODE: single",
     "REQUIRES_IMAGE: No",
     "URGENCY: routine",
     "CONFIDENCE: High",
     "REASONING: General medical query about diabetes symptoms fits MedGemma's capabilities.",
     ""]

/-- `SYNTHESIS_PROMPT.format(query=..., agent_responses=...)`
(utils/prompts.py), with the two format holes spliced in place. -/
def synthesisPrompt (query agent_responses : String) : String :=
  String.intercalate "\n"
    ["You are a medical AI synthesizing insights from multiple specialist agents into a coherent, unified response.",
     "",
     "ORIGINAL USER QUERY:",
     query,
     "",
     "AGENT RESPONSES:",
     agent_responses,
     "",
     "YOUR TASK:",
     "Create a comprehensive, coherent response that:",
     "1. Integrates findings from all consulted agents",
     "2. Resolves any contradictions (or flag if unresolvable)",
     "3. Provides clear, actionable information",
     "4. Maintains medical accuracy and Australian terminology",
     "5. Attributes information to source agents where relevant",
     "6. Highlights areas of agreement and disagreement",
     "",
     "OUTPUT STRUCTURE:",
     "## Comprehensive Medical Assessment",
     "",
     "[Synthesized overview integrating all agent insights]",
     "",
     "## Key Findings",
     "",
     "[Organized findings from each agent, clearly attributed]",
     "",
     "## Recommendations",
     "",
     "[Unified, actionable recommendations based on all consultations]",
     "",
     "## Important Notes",
     "",
     "[Any caveats, contradictions, or areas requiring human clinical judgment]",
     "",
     "---",
     "**Consultation Summary:**",
     "- Agents Consulted: [List agents]",
     "- Overall Confidence: [Estimated percentage]",
     "- Recommendation: [Follow-up action]",
     "",
     "⚠️ **Medical Disclaimer:** This AI-generated assessment is for informational purposes only. Always consult with qualified healthcare professionals for medical advice, diagnosis, or treatment.",
     "",
     "CRITICAL RULES:",
     "- Use Australian medical terminology (paediatric, oedema, haemorrhage)",
     "- Be concise but complete",
     "- Prioritize safety - err on side of recommending professional consultation",
     "- Do NOT diagnose - provide information and guidance only",
     "- If agents disagree significantly, recommend professional evaluation",
     ""]

/-- The completion step of `re.search(lit + r"\s*(.+)", s)` once the literal
has matched, given the remaining characters: `\s*` consumes a maximal
whitespace run and backtracks only when `(.+)` (one or more non-newline
characters, greedy) would otherwise be empty; because every character the
backtracking returns is a non-newline whitespace character followed only by
newlines, the group then consists of that single character. -/
def capAfter (rest : List Char) : Option (List Char) :=
  let r := rest.dropWhile isPySpace
  if !r.isEmpty then some (r.takeWhile (fun c => c ≠ '\n'))
  else
    match (rest.takeWhile isPySpace).reverse.dropWhile (fun c => c = '\n') with
    | [] => none
    | c :: _ => some [c]

/-- `re.search(lit + r"\s*(.+)", s)` (case-sensitive), returning group 1:
scan left to right for a position where the whole pattern matches. -/
def searchCap (lit : List Char) : List Char → Option (List Char)
  | [] => if lit.isEmpty then capAfter [] else none
  | s@(_ :: rest) =>
    if charsStart lit s then
      match capAfter (s.drop lit.length) with
      | some g => some g
      | none => searchCap lit rest
    else searchCap lit rest

/-- Case-insensitive `charsStart`. -/
def ciStart (pat s : List Char) : Bool :=
  charsStart (lowerChars pat) (lowerChars s)

/-- `re.search(lit + r"\s*(w1|w2|...)", s, re.IGNORECASE)`, returning the
matched alternative in canonical lowercase (the source always lowercases the
group).  After the maximal `\s*` run, backtracking can never help: no
alternative begins with a whitespace character.  The alternatives are tried
in pattern order at each candidate position. -/
def searchAlt (lit : List Char) (alts : List (List Char)) : List Char → Option (List Char)
  | [] => none
  | s@(_ :: rest) =>
    if ciStart lit s then
      let r := (s.drop lit.length).dropWhile isPySpace
      match alts.find? (fun a => ciStart a r) with
      | some a => some a
      | none => searchAlt lit alts rest
    else searchAlt lit alts rest

/-- `_parse_routing_response` (utils/orchestrator.py): regex extraction of
the routing fields from the raw language-model reply, with the documented
per-field fallback defaults.  Agent names are taken as free text; nothing
here consults the registered agent set. -/
def parse_routing_response (llm_response query : String) : RoutingDecision :=
  let resp := llm_response.toList
  let agent_match := searchCap "SELECTED_AGENT:".toList resp
  let additional_match := searchCap "ADDITIONAL_AGENTS:".toList resp
  let execution_match :=
    searchAlt "EXECUTION_MODE:".toList
      ["single".toList, "parallel".toList, "sequential".toList] resp
  let image_match := searchAlt "REQUIRES_IMAGE:".toList ["yes".toList, "no".toList] resp
  let urgency_match :=
    searchAlt "URGENCY:".toList
      ["emergency".toList, "urgent".toList, "routine".toList] resp
  let confidence_match :=
    searchAlt "CONFIDENCE:".toList ["high".toList, "medium".toList, "low".toList] resp
  let reasoning_match := searchCap "REASONING:".toList resp
  let primary_agent :=
    match agent_match with
    | some g => String.mk (stripChars g)
    | none => "MedGemma"
  let additional_agents :=
    match additional_match with
    | some g =>
      let agents_str := String.mk (stripChars g)
      if ¬ (String.mk (lowerChars agents_str.toList) ∈ ["none", "n/a", ""]) then
        (pySplitComma agents_str).map pyStrip
      else []
    | none => []
  let execution_mode :=
    match execution_match with
    | some w => if w = "parallel".toList then ExecMode.parallel
                else if w = "sequential".toList then ExecMode.sequential
                else ExecMode.single
    | none => ExecMode.single
  let requires_image :=
    match image_match with
    | some w => w = "yes".toList
    | none => false
  let urgency :=
    match urgency_match with
    | some w => if w = "emergency".toList then Urgency.emergency
                else if w = "urgent".toList then Urgency.urgent
                else Urgency.routine
    | none => Urgency.routine
  let confidence : ℚ :=
    match confidence_match with
    | some w => if w = "high".toList then (0.9 : ℚ)
                else if w = "low".toList then (0.5 : ℚ)
                else (0.7 : ℚ)
    | none => (0.7 : ℚ)
  let reasoning :=
    match reasoning_match with
    | some g => String.mk (stripChars g)
    | none => "Default routing"
  { query := query
    primary_agent := primary_agent
    additional_agents := additional_agents
    execution_mode := execution_mode
    requires_image := requires_image
    urgency_level := urgency
    medical_domain := none
    reasoning := reasoning
    confidence := confidence
    safety_flags := [] }

/-- The `RoutingDecision` built by `analyze_query` (emergency short-circuit,
language-model routing, or the defensive fallback).  The decision does not
depend on the orchestrator's mutable state, so it is factored out of the
state-threading wrapper `analyze_query`. -/
def analyzeDecision (env : Env) (query : String) (context : Option Ctx) : RoutingDecision :=
  let safety_result := check_safety query
  if safety_result.is_emergency then
    { query := query
      primary_agent := "emergency"
      additional_agents := []
      execution_mode := .single
      requires_image := false
      urgency_level := .emergency
      medical_domain := none
      reasoning := "Emergency keywords detected: " ++ String.intercalate ", " safety_result.flags
      confidence := 1
      safety_flags := safety_result.flags }
  else
    let prompt := routerPrompt query (contextStr context)
                    (String.intercalate ", " (env.agents.map (fun kv => kv.1)))
    match env.llm prompt with
    | .ok content => parse_routing_response content query
    | .error e =>
      { query := query
        primary_agent := "MedGemma"
        additional_agents := []
        execution_mode := .single
        requires_image := false
        urgency_level := .routine
        medical_domain := none
        reasoning := "Default routing due to error: " ++ e
        confidence := (0.5 : ℚ)
        safety_flags := [] }

/-- `analyze_query` (utils/orchestrator.py): the decision of
`analyzeDecision`, plus the language-model invocation recorded on the
instrumentation counter on the non-emergency path. -/
def analyze_query (env : Env) (st : OrchState) (query : String) (context : Option Ctx) :
    RoutingDecision × OrchState :=
  if (check_safety query).is_emergency then
    (analyzeDecision env query context, st)
  else
    let prompt := routerPrompt query (contextStr context)
                    (String.intercalate ", " (env.agents.map (fun kv => kv.1)))
    let (_, st') := llmInvoke env st prompt
    (analyzeDecision env query context, st')

/-- Python's `repr` of a list of strings, as interpolated by the
"agent not found" f-string (quote-escaping inside names is not modelled;
no claim inspects this message). -/
def pyListRepr (l : List String) : String :=
  "[" ++ String.intercalate ", " (l.map (fun s => "'" ++ s ++ "'")) ++ "]"

/-- The body of `execute_single_agent` after the initialization gate:
input validation, `process`, and the Tier-2 consultation log (whose
Pydantic construction is the last possible raise inside the call). -/
def executeInitialized (st : OrchState) (agent : AgentSpec)
    (agent_name query : String) (context : Option Ctx) :
    Except String AgentResponse × OrchState :=
  if ¬ agent.validate query context then
    (.error ("Invalid input for agent '" ++ agent_name ++ "'"), st)
  else
    match agent.process query context with
    | .error e => (.error e, st)
    | .ok response =>
      match log_agent_consultation st.memory agent_name query response.output
              response.confidence response.processing_time response.metadata with
      | .error e => (.error e, st)
      | .ok m' => (.ok response, { st with memory := m' })

/-- `execute_single_agent` (utils/orchestrator.py): registry lookup, lazy
initialization (a successful `initialize()` sets the agent's flag), then
`executeInitialized`.  The state is returned on both outcomes because
mutations made before a raise persist. -/
def execute_single_agent (env : Env) (st : OrchState) (agent_name query : String)
    (context : Option Ctx) : Except String AgentResponse × OrchState :=
  match env.agents.find? (fun kv => kv.1 = agent_name) with
  | none =>
    (.error ("Agent '" ++ agent_name ++ "' not found. Available: " ++
       pyListRepr (env.agents.map (fun kv => kv.1))), st)
  | some (_, agent) =>
    if st.initFlags.contains agent_name then
      executeInitialized st agent agent_name query context
    else if agent.initOk then
      executeInitialized { st with initFlags := agent_name :: st.initFlags }
        agent agent_name query context
    else
      (.error ("Failed to initialize agent '" ++ agent_name ++ "'"), st)

/-- The fan-out/fan-in loop of `execute_parallel`: one `execute_single_agent`
task per name, collecting successes and failure messages.  The thread pool's
completion order is abstracted as submission order (a linearization); the
claims about parallel mode concern only the counts and contents of the two
collections, which each task contributes to independently. -/
def parallelOutcomes (env : Env) (query : String) (context : Option Ctx) :
    List String → OrchState → List AgentResponse × List String × OrchState
  | [], st => ([], [], st)
  | agent_name :: rest, st =>
    match execute_single_agent env st agent_name query context with
    | (.ok r, st') =>
      let (responses, errors, st'') := parallelOutcomes env query context rest st'
      (r :: responses, errors, st'')
    | (.error e, st') =>
      let (responses, errors, st'') := parallelOutcomes env query context rest st'
      (responses, ("Error executing " ++ agent_name ++ ": " ++ e) :: errors, st'')

/-- `execute_parallel` (utils/orchestrator.py): if every task failed (and at
least one was dispatched), raise the aggregate error; otherwise return the
successful subset. -/
def execute_parallel (env : Env) (st : OrchState) (agent_names : List String)
    (query : String) (context : Option Ctx) :
    Except String (List AgentResponse) × OrchState :=
  let (responses, errors, st') := parallelOutcomes env query context agent_names st
  if responses.isEmpty ∧ ¬ errors.isEmpty then
    (.error ("All parallel agents failed: " ++ String.intercalate "; " errors), st')
  else (.ok responses, st')

/-- Outcome of a sequential pipeline run: the result (the collected
responses, or the error of the step that aborted the pipeline), the final
orchestrator state, the accumulated context dictionary as it stands after
the run, and the invocation trace — each invoked agent paired with the
context dictionary state passed to it. -/
structure SeqResult where
  result : Except String (List AgentResponse)
  state : OrchState
  finalCtx : Ctx
  trace : List (String × Ctx)

/-- The loop of `execute_sequential`: invoke each agent with the accumulated
context, then write `"<agent>_output"` and `"<agent>_confidence"` into that
same dictionary for the next agent.  A failure aborts the rest of the
pipeline and discards the earlier outputs (the error propagates as the
result; the context mutations made so far persist in `finalCtx`). -/
def seqRun (env : Env) (query : String) : List String → OrchState → Ctx → SeqResult
  | [], st, ctx => ⟨.ok [], st, ctx, []⟩
  | agent_name :: rest, st, ctx =>
    match execute_single_agent env st agent_name query (some ctx) with
    | (.error e, st') => ⟨.error e, st', ctx, [(agent_name, ctx)]⟩
    | (.ok r, st') =>
      let ctx' := ctxSet (ctxSet ctx (agent_name ++ "_output") (.vStr r.output))
                    (agent_name ++ "_confidence") (.vNum r.confidence)
      let sub := seqRun env query rest st' ctx'
      ⟨sub.result.map (fun rsx => r :: rsx), sub.state, sub.finalCtx,
       (agent_name, ctx) :: sub.trace⟩

/-- `execute_sequential` (utils/orchestrator.py).  The accumulator starts
from `context or {}`: a fresh empty dict when the caller's context is `None`
or empty (both falsy), and the caller's own dictionary otherwise. -/
def execute_sequential (env : Env) (st : OrchState) (agent_pipeline : List String)
    (query : String) (context : Option Ctx) : SeqResult :=
  let current_context : Ctx :=
    match context with
    | none => []
    | some c => if c.isEmpty then [] else c
  seqRun env query agent_pipeline st current_context

/-- The dictionary object the CALLER of `execute_sequential` holds after the
call, under Python aliasing: `context or {}` aliases the caller's dict
exactly when it is non-empty (truthy), so the in-place writes of the
pipeline are visible to the caller; an empty dict is falsy, a fresh dict is
used, and the caller's object is untouched. -/
def callerCtxAfterSequential (context : Ctx) (finalCtx : Ctx) : Ctx :=
  if context.isEmpty then context else finalCtx

/-- Round half to even, the rounding of Python's `format(x, '.0%')`
(the source applies it to a binary float; the claims never inspect the
rendered percentage, which only feeds the synthesis prompt). -/
def roundHalfEven (x : ℚ) : ℤ :=
  let fl := ⌊x⌋
  let fr := x - fl
  if fr < 1/2 then fl
  else if fr > 1/2 then fl + 1
  else if fl % 2 = 0 then fl else fl + 1

/-- `f"{confidence:.0%}"`. -/
def pctFormat (q : ℚ) : String := toString (roundHalfEven (q * 100)) ++ "%"

/-- Insert-or-overwrite into the `agent_outputs` dict of
`synthesize_results` (dict semantics: an existing key keeps its position). -/
def upsertOutput (l : List (String × String × String)) (k : String) (v : String × String) :
    List (String × String × String) :=
  if l.any (fun kv => kv.1 = k) then
    l.map (fun kv => if kv.1 = k then (k, v) else kv)
  else l ++ [(k, v)]

/-- The deterministic concatenation fallback of `synthesize_results`. -/
def synthFallback (responses : List AgentResponse) : String :=
  "## Multi-Agent Consultation Results\n\n" ++
  String.join (responses.map (fun r => "### " ++ r.agent_name ++ "\n" ++ r.output ++ "\n\n")) ++
  "\n⚠️ Note: Automatic synthesis failed. Results shown separately."

/-- `synthesize_results` (utils/orchestrator.py): a single response is
returned verbatim with no language-model call; multiple responses are
formatted into the synthesis prompt and merged by the model, falling back to
deterministic concatenation if that call raises. -/
def synthesize_results (env : Env) (st : OrchState) (responses : List AgentResponse)
    (query : String) : String × OrchState :=
  match responses with
  | [r] => (r.output, st)
  | _ =>
    let agent_outputs := responses.foldl
      (fun d r => upsertOutput d r.agent_name (r.output, pctFormat r.confidence)) []
    let agent_responses_str := String.intercalate "\n\n"
      (agent_outputs.map (fun kv =>
        "**" ++ kv.1 ++ ":**\n" ++ kv.2.1 ++ "\n(Confidence: " ++ kv.2.2 ++ ")"))
    let prompt := synthesisPrompt query agent_responses_str
    match llmInvoke env st prompt with
    | (.ok synthesized, st') => (synthesized, st')
    | (.error _, st') => (synthFallback responses, st')

/-- `_generate_emergency_response` (utils/orchestrator.py): the canned
deterministic emergency-guidance text built from the detected flags. -/
def generate_emergency_response (flags : List String) : String :=
  String.intercalate "\n"
    ["",
     "🚨 **EMERGENCY DETECTED**",
     "",
     "**Red flags identified:** " ++ String.intercalate ", " flags,
     "",
     "## IMMEDIATE ACTION REQUIRED:",
     "",
     "### 1. Call 000 (Emergency Services) NOW",
     "Do not delay. Call immediately and provide:",
     "- Your exact location",
     "- The symptoms/condition",
     "- Patient's age and consciousness level",
     "",
     "### 2. While Waiting for Ambulance:",
     "- Stay calm and stay with the patient",
     "- Do NOT drive yourself to hospital",
     "- If unconscious: Place in recovery position (on side)",
     "- If chest pain: Sit down, rest, take aspirin if available (unless allergic)",
     "- If choking: Perform Heimlich maneuver or back blows",
     "- If severe bleeding: Apply direct pressure with clean cloth",
     "",
     "### 3. Do NOT Wait:",
     "⚠️ **This is a potentially life-threatening situation**",
     "⚠️ **Do NOT wait for a GP appointment**",
     "⚠️ **Do NOT attempt to drive to hospital yourself**",
     "",
     "---",
     "",
     "**This is an automated emergency detection system. For medical emergencies in Australia, always call 000.**",
     ""]

/-- Step 3 of `orchestrate`: dispatch on the routing decision's execution
mode (`all_agents = [primary_agent] + additional_agents` for the
multi-agent modes). -/
def runExecution (env : Env) (st : OrchState) (routing : RoutingDecision)
    (query : String) (context : Option Ctx) :
    Except String (List AgentResponse) × OrchState :=
  match routing.execution_mode with
  | .single =>
    match execute_single_agent env st routing.primary_agent query context with
    | (.ok r, st') => (.ok [r], st')
    | (.error e, st') => (.error e, st')
  | .parallel =>
    execute_parallel env st (routing.primary_agent :: routing.additional_agents) query context
  | .sequential =>
    let sr := execute_sequential env st (routing.primary_agent :: routing.additional_agents)
                query context
    (sr.result, sr.state)

/-- `orchestrate` (utils/orchestrator.py).  The embedding is total: the
source wraps every step after `add_user_message` in `try/except Exception`,
and within that scope `analyze_query` itself never raises (its only fallible
call is guarded by its own handler and the prompt templates contain no stray
format braces), so in the handler `routing_decision` is always bound, the
failed Tier-3 event is always logged, and the degraded response is always
constructed.  Elapsed wall-clock times are modelled as `0`. -/
def orchestrate (env : Env) (st : OrchState) (query : String) (context : Option Ctx) :
    OrchestratedResponse × OrchState :=
  let st := { st with memory := add_user_message st.memory query }
  let (routing_decision, st) := analyze_query env st query context
  if routing_decision.urgency_level = .emergency then
    let emergency_output := generate_emergency_response routing_decision.safety_flags
    let st := { st with memory :=
      log_orchestration_event st.memory query routing_decision [] "emergency" 0 true none }
    let st := { st with memory := add_assistant_message st.memory emergency_output }
    ({ query := query
       routing_decision := routing_decision
       agent_responses := []
       synthesized_output := emergency_output
       confidence := 1
       agents_consulted := []
       metadata := [("emergency", .vBool true), ("safety_flags", .vStrList routing_decision.safety_flags)]
       error := none }, st)
  else
    match runExecution env st routing_decision query context with
    | (.ok agent_responses, st1) =>
      let (synthesized_output, st2) := synthesize_results env st1 agent_responses query
      let avg_confidence : ℚ :=
        if agent_responses.isEmpty then 0
        else ((agent_responses.map (fun r => r.confidence)).sum) / (agent_responses.length : ℚ)
      let agents_consulted := agent_responses.map (fun r => r.agent_name)
      let m3 := log_orchestration_event st2.memory query routing_decision agents_consulted
                  routing_decision.execution_mode.str 0 true none
      let st3 := { st2 with memory := m3 }
      let st4 := { st3 with memory := add_assistant_message st3.memory synthesized_output }
      ({ query := query
         routing_decision := routing_decision
         agent_responses := agent_responses
         synthesized_output := synthesized_output
         confidence := avg_confidence
         agents_consulted := agents_consulted
         metadata := [("routing_confidence", .vNum routing_decision.confidence),
                      ("execution_mode", .vStr routing_decision.execution_mode.str),
                      ("num_agents", .vNum agent_responses.length)]
         error := none }, st4)
    | (.error e, st1) =>
      let st2 := { st1 with memory :=
        log_orchestration_event st1.memory query routing_decision [] "error" 0 false (some e) }
      ({ query := query
         routing_decision := routing_decision
         agent_responses := []
         synthesized_output := ""
         confidence := 0
         agents_consulted := []
         metadata := [("error_type", .vStr "Exception")]
         error := some e }, st2)

/-- A finite sequence of `orchestrate` calls, each with its own environment
(external behaviour), query and context, threading the orchestrator state. -/
def runCalls : List (Env × String × Option Ctx) → OrchState → OrchState
  | [], st => st
  | (env, q, c) :: rest, st => runCalls rest (orchestrate env st q c).2

/-- The context-accumulation step of the sequential pipeline, iterated: fold
the per-agent pair of dict writes of `execute_sequential` over a list of
(agent name, response) pairs.  Characterises the contexts occurring in a
pipeline run. -/
def injectOutputs (c : Ctx) : List (String × AgentResponse) → Ctx
  | [] => c
  | (n, r) :: rest =>
    injectOutputs
      (ctxSet (ctxSet c (n ++ "_output") (.vStr r.output)) (n ++ "_confidence") (.vNum r.confidence))
      rest

/-- The literal reading of the sequential-mode context claim for one run of
`execute_sequential` over `pipeline` with initial context dict `ctx0`:
on a successful run, agents are invoked strictly in list order, and the
context passed to the agent at position `i+1` maps, for every earlier
position `j ≤ i`, the key `"<pipeline[j]>_output"` to that agent's output
and `"<pipeline[j]>_confidence"` to its confidence — and, in addition,
contains every entry of the initial context. -/
def SeqContextClaim (env : Env) (st : OrchState) (pipeline : List String)
    (q : String) (ctx0 : Ctx) : Prop :=
  ∀ rs, (execute_sequential env st pipeline q (some ctx0)).result = .ok rs →
    (execute_sequential env st pipeline q (some ctx0)).trace.map Prod.fst = pipeline ∧
    (∀ i, ∀ hi : i + 1 < (execute_sequential env st pipeline q (some ctx0)).trace.length,
     ∀ j, ∀ hj : j < pipeline.length, j ≤ i →
       ctxGet ((execute_sequential env st pipeline q (some ctx0)).trace.get ⟨i + 1, hi⟩).2
           (pipeline.get ⟨j, hj⟩ ++ "_output")
         = (rs.get? j).map (fun r => PyVal.vStr r.output) ∧
       ctxGet ((execute_sequential env st pipeline q (some ctx0)).trace.get ⟨i + 1, hi⟩).2
           (pipeline.get ⟨j, hj⟩ ++ "_confidence")
         = (rs.get? j).map (fun r => PyVal.vNum r.confidence)) ∧
    (∀ i, ∀ hi : i < (execute_sequential env st pipeline q (some ctx0)).trace.length, ∀ k v,
       ctxGet ctx0 k = some v →
       ctxGet ((execute_sequential env st pipeline q (some ctx0)).trace.get ⟨i, hi⟩).2 k = some v)

/-! ### Concrete fixtures

Small closed environments used by the witness and counterexample theorems. -/

/-- Fixture: a specialist that always succeeds with a fixed output and
confidence `0.8`. -/
def okAgent (name : String) : AgentSpec :=
  { initOk := true
    validate := fun _ _ => true
    process := fun q _ =>
      .ok { agent_name := name, input_query := q, output := "out-" ++ name,
            confidence := 1, metadata := [], error := none, processing_time := 0 } }

/-- Fixture: a specialist whose `process` raises `boom`. -/
def failAgent : AgentSpec :=
  { initOk := true, validate := fun _ _ => true, process := fun _ _ => .error "boom" }

/-- Fixture environment: `A` succeeds, `B` raises; the model reply routes to
parallel execution of both. -/
def envParallelFixture : Env :=
  { agents := [("A", okAgent "A"), ("B", failAgent)]
    llm := fun _ =>
      .ok "SELECTED_AGENT: A\nADDITIONAL_AGENTS: B\nEXECUTION_MODE: parallel\nCONFIDENCE: High" }

/-- Fixture environment: both specialists raise; the model reply routes to
parallel execution of both. -/
def envAllFailFixture : Env :=
  { agents := [("A", failAgent), ("B", failAgent)]
    llm := fun _ =>
      .ok "SELECTED_AGENT: A\nADDITIONAL_AGENTS: B\nEXECUTION_MODE: parallel" }

/-- Fixture environment: the language model always raises `boom`. -/
def envLlmDown : Env := { agents := [], llm := fun _ => .error "boom" }

/-- Fixture environment: two succeeding specialists, sequential routing. -/
def envSeqFixture : Env :=
  { agents := [("A", okAgent "A"), ("B", okAgent "B")]
    llm := fun _ => .ok "SELECTED_AGENT: A\nADDITIONAL_AGENTS: B\nEXECUTION_MODE: sequential" }

/-- The responses produced by `okAgent "A"` and `okAgent "B"` on query `"q"`. -/
def seqFixtureResponses : List AgentResponse :=
  [{ agent_name := "A", input_query := "q", output := "out-A", confidence := 1,
     metadata := [], error := none, processing_time := 0 },
   { agent_name := "B", input_query := "q", output := "out-B", confidence := 1,
     metadata := [], error := none, processing_time := 0 }]

/-! ## Lemmas about the context dictionary -/

theorem ctxGet_ctxSet_self (c : Ctx) (k : String) (v : PyVal) :
    ctxGet (ctxSet c k v) k = some v := by
  induction c with
  | nil => simp [ctxSet, ctxGet]
  | cons kv rest ih =>
    by_cases h : kv.1 = k
    · simp [ctxSet, h, ctxGet]
    · simpa [ctxSet, h, ctxGet, List.find?_cons] using ih

theorem ctxGet_ctxSet_ne (c : Ctx) {k k' : String} (v : PyVal) (h : k' ≠ k) :
    ctxGet (ctxSet c k v) k' = ctxGet c k' := by
  induction c with
  | nil =>
    simp only [ctxSet, ctxGet, List.find?]
    simp [Ne.symm h]
  | cons kv rest ih =>
    by_cases hk : kv.1 = k
    · simp [ctxSet, hk, ctxGet, List.find?_cons, Ne.symm h]
    · by_cases hk' : kv.1 = k'
      · simp [ctxSet, hk, ctxGet, List.find?_cons, hk', h]
      · simpa [ctxSet, hk, ctxGet, List.find?_cons, hk'] using ih

theorem ctxGet_ctxSet_isSome (c : Ctx) {k' : String} (k : String) (v : PyVal)
    (h : (ctxGet c k').isSome) : (ctxGet (ctxSet c k v) k').isSome := by
  by_cases he : k' = k
  · subst he; rw [ctxGet_ctxSet_self]; rfl
  · rwa [ctxGet_ctxSet_ne c v he]

theorem append_right_ne {a b : String} (s : String) (h : a ≠ b) : a ++ s ≠ b ++ s := by
  intro he
  apply h
  apply String.ext
  have hd : a.data ++ s.data = b.data ++ s.data := by
    rw [← String.data_append, ← String.data_append, he]
  exact List.append_cancel_right hd

theorem output_key_ne_confidence_key (a b : String) :
    a ++ "_output" ≠ b ++ "_confidence" := by
  intro h
  have h1 : (a ++ "_output").data.getLast? = (b ++ "_confidence").data.getLast? := by rw [h]
  rw [String.data_append, String.data_append, List.getLast?_append, List.getLast?_append] at h1
  have e1 : (("_output" : String).data).getLast? = some 't' := by decide
  have e2 : (("_confidence" : String).data).getLast? = some 'e' := by decide
  rw [e1, e2] at h1
  simp [Option.or] at h1

/-- The injected key pairs for distinct agent names, and the two keys of one
agent, are pairwise distinct. -/
theorem injected_keys_ne {a b : String} (h : a ≠ b) :
    a ++ "_output" ≠ b ++ "_output" ∧ a ++ "_confidence" ≠ b ++ "_confidence" :=
  ⟨append_right_ne _ h, append_right_ne _ h⟩

theorem injectOutputs_preserve (l : List (String × AgentResponse)) (c : Ctx) (k : String)
    (hk : ∀ p ∈ l, k ≠ p.1 ++ "_output" ∧ k ≠ p.1 ++ "_confidence") :
    ctxGet (injectOutputs c l) k = ctxGet c k := by
  induction l generalizing c with
  | nil => rfl
  | cons p rest ih =>
    obtain ⟨h1, h2⟩ := hk p (List.mem_cons_self p rest)
    rw [injectOutputs, ih _ (fun p hp => hk p (List.mem_cons_of_mem _ hp)),
        ctxGet_ctxSet_ne _ _ h2, ctxGet_ctxSet_ne _ _ h1]

theorem injectOutputs_isSome (l : List (String × AgentResponse)) (c : Ctx) (k : String)
    (h : (ctxGet c k).isSome) : (ctxGet (injectOutputs c l) k).isSome := by
  induction l generalizing c with
  | nil => exact h
  | cons p rest ih =>
    exact ih _ (ctxGet_ctxSet_isSome _ _ _ (ctxGet_ctxSet_isSome _ _ _ h))

theorem injectOutputs_mem_isSome (l : List (String × AgentResponse)) (c : Ctx)
    (n : String) (hmem : n ∈ l.map Prod.fst) :
    (ctxGet (injectOutputs c l) (n ++ "_output")).isSome ∧
    (ctxGet (injectOutputs c l) (n ++ "_confidence")).isSome := by
  induction l generalizing c with
  | nil => simp at hmem
  | cons p rest ih =>
    by_cases he : n ∈ rest.map Prod.fst
    · exact ih _ he
    · have hn : n = p.1 := by
        rcases List.mem_cons.mp hmem with h | h
        · exact h
        · exact absurd h he
      subst hn
      rw [injectOutputs]
      constructor
      · apply injectOutputs_isSome
        apply ctxGet_ctxSet_isSome
        rw [ctxGet_ctxSet_self]
        rfl
      · apply injectOutputs_isSome
        rw [ctxGet_ctxSet_self]
        rfl

theorem injectOutputs_lookup (l : List (String × AgentResponse)) (c : Ctx)
    (hnodup : (l.map Prod.fst).Nodup) (n : String) (r : AgentResponse) (hmem : (n, r) ∈ l) :
    ctxGet (injectOutputs c l) (n ++ "_output") = some (.vStr r.output) ∧
    ctxGet (injectOutputs c l) (n ++ "_confidence") = some (.vNum r.confidence) := by
  induction l generalizing c with
  | nil => simp at hmem
  | cons p rest ih =>
    rw [List.map_cons, List.nodup_cons] at hnodup
    rcases List.mem_cons.mp hmem with h | h
    · subst h
      have hne : ∀ p ∈ rest, (n ++ "_output" ≠ p.1 ++ "_output" ∧
          n ++ "_output" ≠ p.1 ++ "_confidence") ∧
          (n ++ "_confidence" ≠ p.1 ++ "_output" ∧
          n ++ "_confidence" ≠ p.1 ++ "_confidence") := by
        intro p hp
        have hn : n ≠ p.1 := by
          intro he
          have hm : n ∈ List.map Prod.fst rest := by
            rw [he]; exact List.mem_map_of_mem Prod.fst hp
          exact hnodup.1 hm
        exact ⟨⟨(injected_keys_ne hn).1, output_key_ne_confidence_key n p.1⟩,
               ⟨Ne.symm (output_key_ne_confidence_key p.1 n), (injected_keys_ne hn).2⟩⟩
      rw [injectOutputs]
      constructor
      · rw [injectOutputs_preserve _ _ _ (fun p hp => (hne p hp).1),
            ctxGet_ctxSet_ne _ _ (output_key_ne_confidence_key n n),
            ctxGet_ctxSet_self]
      · rw [injectOutputs_preserve _ _ _ (fun p hp => (hne p hp).2),
            ctxGet_ctxSet_self]
    · exact ih _ hnodup.2 h

/-! ## State-effect lemmas -/

theorem analyze_query_decision (env : Env) (st : OrchState) (q : String) (c : Option Ctx) :
    (analyze_query env st q c).1 = analyzeDecision env q c := by
  unfold analyze_query
  split <;> rfl

theorem analyze_query_memory (env : Env) (st : OrchState) (q : String) (c : Option Ctx) :
    (analyze_query env st q c).2.memory = st.memory := by
  unfold analyze_query
  split <;> rfl

theorem log_agent_consultation_ok_log (m : ThreeTierMemory) (a q r : String) (cf pt : ℚ)
    (md : Ctx) (m' : ThreeTierMemory) (h : log_agent_consultation m a q r cf pt md = .ok m') :
    m'.orchestration_log = m.orchestration_log := by
  unfold log_agent_consultation at h
  split at h
  · cases h; rfl
  · cases h

theorem executeInitialized_log (st : OrchState) (a : AgentSpec) (n q : String)
    (c : Option Ctx) :
    ((executeInitialized st a n q c).2).memory.orchestration_log =
      st.memory.orchestration_log := by
  unfold executeInitialized
  split
  · rfl
  · cases hp : a.process q c with
    | error e => rfl
    | ok r =>
      simp only []
      cases hl : log_agent_consultation st.memory n q r.output r.confidence
          r.processing_time r.metadata with
      | error e => rfl
      | ok m' => exact log_agent_consultation_ok_log _ _ _ _ _ _ _ _ hl

theorem execute_single_agent_log (env : Env) (st : OrchState) (n q : String)
    (c : Option Ctx) :
    ((execute_single_agent env st n q c).2).memory.orchestration_log =
      st.memory.orchestration_log := by
  unfold execute_single_agent
  split
  · rfl
  · split
    · exact executeInitialized_log ..
    · split
      · exact executeInitialized_log ..
      · rfl

theorem parallelOutcomes_log (env : Env) (q : String) (c : Option Ctx) :
    ∀ (l : List String) (st : OrchState),
      (parallelOutcomes env q c l st).2.2.memory.orchestration_log =
        st.memory.orchestration_log := by
  intro l
  induction l with
  | nil => intro st; rfl
  | cons n rest ih =>
    intro st
    have hs := execute_single_agent_log env st n q c
    unfold parallelOutcomes
    cases hr : execute_single_agent env st n q c with
    | mk res st' =>
      rw [hr] at hs
      cases res with
      | ok r => simpa [ih st'] using hs
      | error e => simpa [ih st'] using hs

theorem seqRun_log (env : Env) (q : String) :
    ∀ (l : List String) (st : OrchState) (ctx : Ctx),
      (seqRun env q l st ctx).state.memory.orchestration_log =
        st.memory.orchestration_log := by
  intro l
  induction l with
  | nil => intro st ctx; rfl
  | cons n rest ih =>
    intro st ctx
    have hs := execute_single_agent_log env st n q (some ctx)
    unfold seqRun
    cases hr : execute_single_agent env st n q (some ctx) with
    | mk res st' =>
      rw [hr] at hs
      cases res with
      | ok r => simpa [ih st'] using hs
      | error e => simpa using hs

theorem execute_parallel_log (env : Env) (st : OrchState) (l : List String) (q : String)
    (c : Option Ctx) :
    ((execute_parallel env st l q c).2).memory.orchestration_log =
      st.memory.orchestration_log := by
  have h := parallelOutcomes_log env q c l st
  revert h
  unfold execute_parallel
  generalize parallelOutcomes env q c l st = p
  obtain ⟨rs, es, st'⟩ := p
  intro h
  dsimp only at h ⊢
  split <;> exact h

theorem runExecution_log (env : Env) (st : OrchState) (rd : RoutingDecision) (q : String)
    (c : Option Ctx) :
    ((runExecution env st rd q c).2).memory.orchestration_log =
      st.memory.orchestration_log := by
  unfold runExecution
  cases rd.execution_mode with
  | single =>
    have hs := execute_single_agent_log env st rd.primary_agent q c
    cases hr : execute_single_agent env st rd.primary_agent q c with
    | mk res st' =>
      rw [hr] at hs
      cases res with
      | ok r => exact hs
      | error e => exact hs
  | parallel => exact execute_parallel_log ..
  | sequential => exact seqRun_log ..

theorem synthesize_results_memory (env : Env) (st : OrchState) (rs : List AgentResponse)
    (q : String) :
    (synthesize_results env st rs q).2.memory = st.memory := by
  unfold synthesize_results
  split
  · rfl
  · dsimp only
    split
    next s st' heq =>
      exact (congrArg (fun x => x.2.memory) heq : st.memory = st'.memory).symm
    next e st' heq =>
      exact (congrArg (fun x => x.2.memory) heq : st.memory = st'.memory).symm

theorem add_user_message_log (m : ThreeTierMemory) (s : String) :
    (add_user_message m s).orchestration_log = m.orchestration_log := rfl

theorem add_assistant_message_log (m : ThreeTierMemory) (s : String) :
    (add_assistant_message m s).orchestration_log = m.orchestration_log := rfl

theorem log_orchestration_event_length (m : ThreeTierMemory) (q : String)
    (rd : RoutingDecision) (ac : List String) (em : String) (t : ℚ) (s : Bool)
    (e : Option String) :
    (log_orchestration_event m q rd ac em t s e).orchestration_log.length =
      m.orchestration_log.length + 1 := by
  simp [log_orchestration_event]

/-- Each `orchestrate` call, on every terminal path, appends exactly one
Tier-3 event. -/
theorem orchestrate_log_step (env : Env) (st : OrchState) (q : String) (c : Option Ctx) :
    ((orchestrate env st q c).2).memory.orchestration_log.length =
      st.memory.orchestration_log.length + 1 := by
  unfold orchestrate
  dsimp only
  split
  · simp [add_assistant_message_log, log_orchestration_event_length,
      analyze_query_memory, add_user_message_log]
  · split
    next rs st1 heq =>
      have h := runExecution_log env
        (analyze_query env { st with memory := add_user_message st.memory q } q c).2
        (analyze_query env { st with memory := add_user_message st.memory q } q c).1 q c
      rw [heq] at h
      dsimp only at h
      rw [analyze_query_memory, add_user_message_log] at h
      simp [add_assistant_message_log, log_orchestration_event_length,
        synthesize_results_memory, h]
    next e st1 heq =>
      have h := runExecution_log env
        (analyze_query env { st with memory := add_user_message st.memory q } q c).2
        (analyze_query env { st with memory := add_user_message st.memory q } q c).1 q c
      rw [heq] at h
      dsimp only at h
      rw [analyze_query_memory, add_user_message_log] at h
      simp [log_orchestration_event_length, h]

theorem runCalls_log (calls : List (Env × String × Option Ctx)) :
    ∀ st : OrchState, (runCalls calls st).memory.orchestration_log.length =
      st.memory.orchestration_log.length + calls.length := by
  induction calls with
  | nil => intro st; rfl
  | cons call rest ih =>
    intro st
    obtain ⟨e, qq, cc⟩ := call
    rw [runCalls, ih, orchestrate_log_step]
    simp [List.length_cons]
    omega

/-- **C3**: after any finite sequence of `orchestrate` calls on a freshly
constructed orchestrator — each call with arbitrary external behaviour,
query and context, and terminating on the emergency, success or error path —
the Tier-3 orchestration log has exactly one `OrchestrationEvent` per call. -/
theorem tier3_log_counts_calls (calls : List (Env × String × Option Ctx)) :
    (runCalls calls OrchState.init).memory.orchestration_log.length = calls.length := by
  rw [runCalls_log calls OrchState.init]
  simp [OrchState.init, ThreeTierMemory.init]

/-- **C6**: for every single-element response list and every query,
`synthesize_results` returns exactly that response's `output` (string
identity) and performs no language-model call: the state — including the
instrumentation counter of LLM invocations — is returned unchanged. -/
theorem synthesize_single_identity (env : Env) (st : OrchState) (r : AgentResponse)
    (q : String) : synthesize_results env st [r] q = (r.output, st) := rfl

/-- **C2**: `orchestrate` is the error boundary.  The embedding of
`orchestrate` is a total function into `OrchestratedResponse` for every
environment behaviour (any specialist or language-model call may raise) —
the source wraps all fallible steps in a catch-all handler.  First
conjunct: every returned value either has `error = None` or is the fully
degraded shape.  Second conjunct: whenever an internal step fails, the
returned value carries that step's populated error string together with
`confidence = 0`, empty `agent_responses`, empty `agents_consulted` and
empty `synthesized_output`.  The execution step is the only fallible
internal step once the routing decision exists: `analyze_query` is total
(its one fallible call is guarded by its own handler and the prompt
templates contain no stray format braces) and `synthesize_results`
recovers internally, so hypothesising its failure covers every raise the
source's handler can catch. -/
theorem orchestrate_error_boundary (env : Env) (st : OrchState) (q : String)
    (ctx : Option Ctx) :
    ((orchestrate env st q ctx).1.error = none ∨
      (∃ e, (orchestrate env st q ctx).1.error = some e ∧
        (orchestrate env st q ctx).1.confidence = 0 ∧
        (orchestrate env st q ctx).1.agent_responses = [] ∧
        (orchestrate env st q ctx).1.agents_consulted = [] ∧
        (orchestrate env st q ctx).1.synthesized_output = "")) ∧
    (∀ e, (analyzeDecision env q ctx).urgency_level ≠ .emergency →
      (runExecution env
          (analyze_query env { st with memory := add_user_message st.memory q } q ctx).2
          (analyzeDecision env q ctx) q ctx).1 = .error e →
      (orchestrate env st q ctx).1.error = some e ∧
      (orchestrate env st q ctx).1.confidence = 0 ∧
      (orchestrate env st q ctx).1.agent_responses = [] ∧
      (orchestrate env st q ctx).1.agents_consulted = [] ∧
      (orchestrate env st q ctx).1.synthesized_output = "") := by
  constructor
  · unfold orchestrate
    dsimp only
    split
    · left; rfl
    · split
      next rs st1 heq => left; rfl
      next e st1 heq =>
        right
        exact ⟨e, rfl, rfl, rfl, rfl, rfl⟩
  · intro e hurg hfail
    unfold orchestrate
    dsimp only
    rw [analyze_query_decision, if_neg hurg]
    cases hr : runExecution env
        (analyze_query env { st with memory := add_user_message st.memory q } q ctx).2
        (analyzeDecision env q ctx) q ctx with
    | mk res st1 =>
      rw [hr] at hfail
      dsimp only at hfail
      subst hfail
      exact ⟨rfl, rfl, rfl, rfl, rfl⟩

theorem orchestrate_error_boundary_witness :
    (analyzeDecision envAllFailFixture "hello" none).urgency_level ≠ .emergency ∧
    (runExecution envAllFailFixture
        (analyze_query envAllFailFixture
          { OrchState.init with memory := add_user_message OrchState.init.memory "hello" }
          "hello" none).2
        (analyzeDecision envAllFailFixture "hello" none) "hello" none).1 =
      .error ("All parallel agents failed: " ++
        "Error executing A: boom; Error executing B: boom") ∧
    (orchestrate envAllFailFixture OrchState.init "hello" none).1.error =
      some ("All parallel agents failed: " ++
        "Error executing A: boom; Error executing B: boom") ∧
    (orchestrate envAllFailFixture OrchState.init "hello" none).1.confidence = 0 ∧
    (orchestrate envAllFailFixture OrchState.init "hello" none).1.agent_responses = [] ∧
    (orchestrate envAllFailFixture OrchState.init "hello" none).1.agents_consulted = [] ∧
    (orchestrate envAllFailFixture OrchState.init "hello" none).1.synthesized_output = "" :=
  ⟨by decide, by decide,
   (orchestrate_error_boundary envAllFailFixture OrchState.init "hello" none).2
     ("All parallel agents failed: " ++ "Error executing A: boom; Error executing B: boom")
     (by decide) (by decide)⟩

/-- **C8**: for every non-emergency query, if the language-model invocation
inside `analyze_query` raises (modelled by the oracle returning an error),
`analyze_query` does not propagate it (the embedding is total) but returns
the defensive fallback `RoutingDecision` routing to the general specialist
`"MedGemma"` with confidence `0.5` and a reasoning string citing the error
message. -/
theorem analyze_query_llm_fallback (env : Env) (st : OrchState) (q : String)
    (ctx : Option Ctx) (e : String)
    (hne : (check_safety q).is_emergency = false)
    (hllm : env.llm (routerPrompt q (contextStr ctx)
        (String.intercalate ", " (env.agents.map (fun kv => kv.1)))) = .error e) :
    (analyze_query env st q ctx).1.primary_agent = "MedGemma" ∧
    (analyze_query env st q ctx).1.confidence = (0.5 : ℚ) ∧
    (analyze_query env st q ctx).1.reasoning = "Default routing due to error: " ++ e := by
  rw [analyze_query_decision]
  unfold analyzeDecision
  simp only [hne, Bool.false_eq_true, if_false]
  rw [hllm]
  exact ⟨rfl, rfl, rfl⟩

theorem analyze_query_llm_fallback_witness :
    (check_safety "hello").is_emergency = false ∧
    (analyze_query envLlmDown OrchState.init "hello" none).1.primary_agent = "MedGemma" ∧
    (analyze_query envLlmDown OrchState.init "hello" none).1.confidence = (0.5 : ℚ) ∧
    (analyze_query envLlmDown OrchState.init "hello" none).1.reasoning =
      "Default routing due to error: " ++ "boom" :=
  ⟨by decide,
   analyze_query_llm_fallback envLlmDown OrchState.init "hello" none "boom" (by decide) rfl⟩

theorem analyze_query_state_emergency (env : Env) (s : OrchState) (q : String)
    (ctx : Option Ctx) (hsafety : (check_safety q).is_emergency = true) :
    (analyze_query env s q ctx).2 = s := by
  unfold analyze_query
  simp [hsafety]

/-- **C1**: every query containing (case-insensitively) a configured
emergency keyword short-circuits: `analyze_query` returns the emergency
`RoutingDecision` (`primary_agent = "emergency"`, `urgency_level =
emergency`, `confidence = 1.0`, `safety_flags` = the detected keywords) with
the orchestrator state — including the LLM-call counter — untouched, and
`orchestrate` consults no specialist: empty `agents_consulted` and
`agent_responses`, with `synthesized_output` the canned deterministic
emergency text built from the detected flags, again with no LLM call. -/
theorem emergency_keyword_short_circuit (env : Env) (st : OrchState) (q : String)
    (ctx : Option Ctx)
    (h : ∃ k ∈ emergency_keywords, strContains (pyLower q) k = true) :
    (analyze_query env st q ctx).1.primary_agent = "emergency" ∧
    (analyze_query env st q ctx).1.urgency_level = .emergency ∧
    (analyze_query env st q ctx).1.confidence = 1 ∧
    (analyze_query env st q ctx).1.safety_flags =
      emergency_keywords.filter (fun k => strContains (pyLower q) k) ∧
    (analyze_query env st q ctx).2 = st ∧
    (orchestrate env st q ctx).1.agents_consulted = [] ∧
    (orchestrate env st q ctx).1.agent_responses = [] ∧
    (orchestrate env st q ctx).1.synthesized_output =
      generate_emergency_response
        (emergency_keywords.filter (fun k => strContains (pyLower q) k)) ∧
    (orchestrate env st q ctx).2.llmCalls = st.llmCalls := by
  have hflag : emergency_keywords.filter (fun k => strContains (pyLower q) k) ≠ [] := by
    obtain ⟨k, hk, hc⟩ := h
    intro hnil
    have hmem : k ∈ emergency_keywords.filter (fun k => strContains (pyLower q) k) :=
      List.mem_filter.mpr ⟨hk, hc⟩
    rw [hnil] at hmem
    exact absurd hmem (List.not_mem_nil k)
  have hsafety : (check_safety q).is_emergency = true := by
    simp only [check_safety, Bool.not_eq_eq_eq_not, Bool.not_true, List.isEmpty_eq_false]
    exact hflag
  have hd1 : analyzeDecision env q ctx =
      { query := q
        primary_agent := "emergency"
        additional_agents := []
        execution_mode := .single
        requires_image := false
        urgency_level := .emergency
        medical_domain := none
        reasoning := "Emergency keywords detected: " ++
          String.intercalate ", " (emergency_keywords.filter (fun k => strContains (pyLower q) k))
        confidence := 1
        safety_flags := emergency_keywords.filter (fun k => strContains (pyLower q) k) } := by
    have hcond :
        (!(List.filter (fun k => strContains (pyLower q) k) emergency_keywords).isEmpty) = true := by
      simp only [Bool.not_eq_eq_eq_not, Bool.not_true, List.isEmpty_eq_false]
      exact hflag
    simp only [analyzeDecision, check_safety]
    simp [hcond]
  refine ⟨?_, ?_, ?_, ?_, analyze_query_state_emergency env st q ctx hsafety, ?_, ?_, ?_, ?_⟩ <;>
    · first
      | (rw [analyze_query_decision, hd1])
      | (unfold orchestrate
         dsimp only
         rw [analyze_query_decision, hd1,
             analyze_query_state_emergency env _ q ctx hsafety]
         simp)

theorem emergency_keyword_short_circuit_witness :
    (∃ k ∈ emergency_keywords,
      strContains (pyLower "I have severe chest pain right now") k = true) ∧
    (analyze_query envLlmDown OrchState.init "I have severe chest pain right now" none).1.primary_agent
      = "emergency" ∧
    (analyze_query envLlmDown OrchState.init "I have severe chest pain right now" none).1.urgency_level
      = .emergency ∧
    (analyze_query envLlmDown OrchState.init "I have severe chest pain right now" none).1.confidence
      = 1 ∧
    (analyze_query envLlmDown OrchState.init "I have severe chest pain right now" none).1.safety_flags
      = emergency_keywords.filter
          (fun k => strContains (pyLower "I have severe chest pain right now") k) ∧
    (analyze_query envLlmDown OrchState.init "I have severe chest pain right now" none).2
      = OrchState.init ∧
    (orchestrate envLlmDown OrchState.init "I have severe chest pain right now" none).1.agents_consulted
      = [] ∧
    (orchestrate envLlmDown OrchState.init "I have severe chest pain right now" none).1.agent_responses
      = [] ∧
    (orchestrate envLlmDown OrchState.init "I have severe chest pain right now" none).1.synthesized_output
      = generate_emergency_response
          (emergency_keywords.filter
            (fun k => strContains (pyLower "I have severe chest pain right now") k)) ∧
    (orchestrate envLlmDown OrchState.init "I have severe chest pain right now" none).2.llmCalls
      = OrchState.init.llmCalls :=
  ⟨by decide,
   emergency_keyword_short_circuit envLlmDown OrchState.init
     "I have severe chest pain right now" none (by decide)⟩

/-- **C7**: the routing parser is total on raw language-model replies and
each missing or unparseable field takes its documented default:
`primary_agent = "MedGemma"` when no `SELECTED_AGENT` pattern matches (and
the matched text, stripped, taken verbatim otherwise — free text, never
validated against the registered specialist set, which the parser does not
even receive); `execution_mode = single`, `requires_image = false`,
`urgency_level = routine` when their patterns are missing; confidence
`High ↦ 0.9 / Medium ↦ 0.7 / Low ↦ 0.5` with default `0.7` when the
`CONFIDENCE` pattern is missing; and an `ADDITIONAL_AGENTS` value of
`"none"`, `"n/a"` or empty (case-insensitively, after stripping) parses to
the empty list, any other value to the comma-split, stripped free text. -/
theorem routing_parser_defaults (resp q : String) :
    (searchCap "SELECTED_AGENT:".toList resp.toList = none →
      (parse_routing_response resp q).primary_agent = "MedGemma") ∧
    (∀ g, searchCap "SELECTED_AGENT:".toList resp.toList = some g →
      (parse_routing_response resp q).primary_agent = String.mk (stripChars g)) ∧
    (searchAlt "EXECUTION_MODE:".toList
        ["single".toList, "parallel".toList, "sequential".toList] resp.toList = none →
      (parse_routing_response resp q).execution_mode = .single) ∧
    (searchAlt "REQUIRES_IMAGE:".toList ["yes".toList, "no".toList] resp.toList = none →
      (parse_routing_response resp q).requires_image = false) ∧
    (searchAlt "URGENCY:".toList
        ["emergency".toList, "urgent".toList, "routine".toList] resp.toList = none →
      (parse_routing_response resp q).urgency_level = .routine) ∧
    (searchAlt "CONFIDENCE:".toList ["high".toList, "medium".toList, "low".toList]
        resp.toList = none → (parse_routing_response resp q).confidence = (0.7 : ℚ)) ∧
    (searchAlt "CONFIDENCE:".toList ["high".toList, "medium".toList, "low".toList]
        resp.toList = some "high".toList →
      (parse_routing_response resp q).confidence = (0.9 : ℚ)) ∧
    (searchAlt "CONFIDENCE:".toList ["high".toList, "medium".toList, "low".toList]
        resp.toList = some "medium".toList →
      (parse_routing_response resp q).confidence = (0.7 : ℚ)) ∧
    (searchAlt "CONFIDENCE:".toList ["high".toList, "medium".toList, "low".toList]
        resp.toList = some "low".toList →
      (parse_routing_response resp q).confidence = (0.5 : ℚ)) ∧
    (searchCap "ADDITIONAL_AGENTS:".toList resp.toList = none →
      (parse_routing_response resp q).additional_agents = []) ∧
    (∀ g, searchCap "ADDITIONAL_AGENTS:".toList resp.toList = some g →
      String.mk (lowerChars (String.mk (stripChars g)).toList) ∈
        (["none", "n/a", ""] : List String) →
      (parse_routing_response resp q).additional_agents = []) ∧
    (∀ g, searchCap "ADDITIONAL_AGENTS:".toList resp.toList = some g →
      ¬ String.mk (lowerChars (String.mk (stripChars g)).toList) ∈
        (["none", "n/a", ""] : List String) →
      (parse_routing_response resp q).additional_agents =
        (pySplitComma (String.mk (stripChars g))).map pyStrip) := by
  refine ⟨?_, ?_, ?_, ?_, ?_, ?_, ?_, ?_, ?_, ?_, ?_, ?_⟩
  · intro h; simp at h; simp [parse_routing_response, h]
  · intro g h; simp at h; simp [parse_routing_response, h]
  · intro h; simp at h; simp [parse_routing_response, h]
  · intro h; simp at h; simp [parse_routing_response, h]
  · intro h; simp at h; simp [parse_routing_response, h]
  · intro h; simp at h; simp [parse_routing_response, h]
  · intro h; simp at h; simp [parse_routing_response, h]
  · intro h; simp at h; simp [parse_routing_response, h]
  · intro h; simp at h; simp [parse_routing_response, h]
  · intro h; simp at h; simp [parse_routing_response, h]
  · intro g h hmem; simp at h; simp at hmem; simp [parse_routing_response, h, hmem]
  · intro g h hmem; simp at h; simp at hmem; simp [parse_routing_response, h, hmem]

theorem routing_parser_defaults_witness :
    searchCap "SELECTED_AGENT:".toList ("" : String).toList = none ∧
    (parse_routing_response "" "q").primary_agent = "MedGemma" ∧
    (parse_routing_response "" "q").execution_mode = .single ∧
    (parse_routing_response "" "q").confidence = (0.7 : ℚ) :=
  ⟨by decide,
   (routing_parser_defaults "" "q").1 (by decide),
   (routing_parser_defaults "" "q").2.2.1 (by decide),
   (routing_parser_defaults "" "q").2.2.2.2.2.1 (by decide)⟩

theorem parse_confidence_cases (s q : String) :
    (parse_routing_response s q).confidence = (0.9 : ℚ) ∨
    (parse_routing_response s q).confidence = (0.7 : ℚ) ∨
    (parse_routing_response s q).confidence = (0.5 : ℚ) := by
  unfold parse_routing_response
  dsimp only
  rcases hc : searchAlt "CONFIDENCE:".toList ["high".toList, "medium".toList, "low".toList]
      s.toList with _ | w
  · right; left; rfl
  · by_cases h1 : w = "high".toList
    · left; simp [h1]
    · by_cases h2 : w = "low".toList
      · right; right; simp [h1, h2]
      · right; left; simp at h1 h2; simp [h1, h2]

theorem analyzeDecision_confidence_bounds (env : Env) (q : String) (c : Option Ctx) :
    0 ≤ (analyzeDecision env q c).confidence ∧ (analyzeDecision env q c).confidence ≤ 1 := by
  unfold analyzeDecision
  dsimp only
  split
  · exact ⟨by norm_num, by norm_num⟩
  · split
    next content heq =>
      rcases parse_confidence_cases content q with h | h | h <;> rw [h] <;>
        exact ⟨by norm_num, by norm_num⟩
    next e heq => exact ⟨by norm_num, by norm_num⟩

theorem log_agent_consultation_ok_bounds (m : ThreeTierMemory) (a q r : String)
    (cf pt : ℚ) (md : Ctx) (m' : ThreeTierMemory)
    (h : log_agent_consultation m a q r cf pt md = .ok m') : 0 ≤ cf ∧ cf ≤ 1 := by
  unfold log_agent_consultation at h
  split at h
  next hcond => exact ⟨hcond.1, hcond.2.1⟩
  next hcond => cases h

theorem executeInitialized_ok_confidence (st : OrchState) (a : AgentSpec) (n qq : String)
    (c : Option Ctx) (r : AgentResponse) (st' : OrchState)
    (h : executeInitialized st a n qq c = (.ok r, st')) :
    0 ≤ r.confidence ∧ r.confidence ≤ 1 := by
  unfold executeInitialized at h
  split at h
  · simp at h
  · split at h
    next e hp => simp at h
    next resp hp =>
      split at h
      next e hl => simp at h
      next m' hl =>
        have hr : resp = r := by
          have h1 := congrArg (fun p => p.1) h
          simpa using h1
        subst hr
        exact log_agent_consultation_ok_bounds _ _ _ _ _ _ _ _ hl

theorem execute_single_agent_ok_confidence (env : Env) (st : OrchState) (n qq : String)
    (c : Option Ctx) (r : AgentResponse) (st' : OrchState)
    (h : execute_single_agent env st n qq c = (.ok r, st')) :
    0 ≤ r.confidence ∧ r.confidence ≤ 1 := by
  unfold execute_single_agent at h
  split at h
  · simp at h
  · split at h
    · exact executeInitialized_ok_confidence _ _ _ _ _ _ _ h
    · split at h
      · exact executeInitialized_ok_confidence _ _ _ _ _ _ _ h
      · simp at h

theorem parallelOutcomes_confidence (env : Env) (qq : String) (c : Option Ctx) :
    ∀ (l : List String) (st : OrchState) (r : AgentResponse),
      r ∈ (parallelOutcomes env qq c l st).1 → 0 ≤ r.confidence ∧ r.confidence ≤ 1 := by
  intro l
  induction l with
  | nil => intro st r hr; simp [parallelOutcomes] at hr
  | cons n rest ih =>
    intro st r hr
    unfold parallelOutcomes at hr
    cases hx : execute_single_agent env st n qq c with
    | mk res st' =>
      rw [hx] at hr
      cases res with
      | ok r0 =>
        dsimp only at hr
        rcases List.mem_cons.mp hr with h | h
        · subst h; exact execute_single_agent_ok_confidence env st n qq c r st' hx
        · exact ih st' r h
      | error e =>
        dsimp only at hr
        exact ih st' r hr

theorem seqRun_ok_confidence (env : Env) (qq : String) :
    ∀ (l : List String) (st : OrchState) (ctx : Ctx) (rs : List AgentResponse),
      (seqRun env qq l st ctx).result = .ok rs →
      ∀ r ∈ rs, 0 ≤ r.confidence ∧ r.confidence ≤ 1 := by
  intro l
  induction l with
  | nil =>
    intro st ctx rs h r hr
    simp [seqRun] at h
    subst h
    simp at hr
  | cons n rest ih =>
    intro st ctx rs h r hr
    unfold seqRun at h
    cases hx : execute_single_agent env st n qq (some ctx) with
    | mk res st' =>
      rw [hx] at h
      cases res with
      | error e => simp at h
      | ok r0 =>
        dsimp only at h
        cases hs : (seqRun env qq rest st'
            (ctxSet (ctxSet ctx (n ++ "_output") (.vStr r0.output)) (n ++ "_confidence")
              (.vNum r0.confidence))).result with
        | error e => rw [hs] at h; simp [Except.map] at h
        | ok rsx =>
          rw [hs] at h
          simp only [Except.map, Except.ok.injEq] at h
          subst h
          rcases List.mem_cons.mp hr with h | h
          · subst h; exact execute_single_agent_ok_confidence env st n qq (some ctx) r st' hx
          · exact ih st' _ rsx hs r h

theorem runExecution_ok_confidence (env : Env) (st : OrchState) (rd : RoutingDecision)
    (qq : String) (c : Option Ctx) (rs : List AgentResponse) (st' : OrchState)
    (h : runExecution env st rd qq c = (.ok rs, st')) :
    ∀ r ∈ rs, 0 ≤ r.confidence ∧ r.confidence ≤ 1 := by
  unfold runExecution at h
  cases hm : rd.execution_mode with
  | single =>
    rw [hm] at h
    dsimp only at h
    cases hx : execute_single_agent env st rd.primary_agent qq c with
    | mk res stx =>
      rw [hx] at h
      cases res with
      | ok r0 =>
        dsimp only at h
        have hr : [r0] = rs := by
          have h1 := congrArg (fun p => p.1) h
          simpa using h1
        subst hr
        intro r hr
        rcases List.mem_singleton.mp hr with rfl
        exact execute_single_agent_ok_confidence env st rd.primary_agent qq c r stx hx
      | error e => simp at h
  | parallel =>
    rw [hm] at h
    dsimp only at h
    unfold execute_parallel at h
    dsimp only at h
    split at h
    · simp at h
    · have hr : (parallelOutcomes env qq c (rd.primary_agent :: rd.additional_agents) st).1
          = rs := by
        have h1 := congrArg (fun p => p.1) h
        simpa using h1
      intro r hmem
      exact parallelOutcomes_confidence env qq c _ st r (hr ▸ hmem)
  | sequential =>
    rw [hm] at h
    dsimp only at h
    have hres : (execute_sequential env st (rd.primary_agent :: rd.additional_agents) qq c).result
          = .ok rs := by
      have h1 := congrArg (fun p => p.1) h
      simpa using h1
    rw [execute_sequential.eq_def] at hres
    exact seqRun_ok_confidence env qq _ st _ rs hres

theorem avg_confidence_bounds (l : List AgentResponse)
    (h : ∀ r ∈ l, 0 ≤ r.confidence ∧ r.confidence ≤ 1) :
    0 ≤ (if l.isEmpty then (0 : ℚ)
          else (l.map (fun r => r.confidence)).sum / (l.length : ℚ)) ∧
    (if l.isEmpty then (0 : ℚ)
          else (l.map (fun r => r.confidence)).sum / (l.length : ℚ)) ≤ 1 := by
  split
  · exact ⟨le_refl 0, by norm_num⟩
  next hne =>
    have hlist : l ≠ [] := by simpa using hne
    have hlen : 0 < (l.length : ℚ) := by
      exact_mod_cast List.length_pos.mpr hlist
    have hsum0 : 0 ≤ (l.map (fun r => r.confidence)).sum := by
      apply List.sum_nonneg
      intro x hx
      obtain ⟨r, hr, rfl⟩ := List.mem_map.mp hx
      exact (h r hr).1
    have hsum1 : (l.map (fun r => r.confidence)).sum ≤ (l.length : ℚ) := by
      have hb := List.sum_le_card_nsmul (l.map (fun r => r.confidence)) 1 ?_
      · simpa [nsmul_eq_mul] using hb
      · intro x hx
        obtain ⟨r, hr, rfl⟩ := List.mem_map.mp hx
        exact (h r hr).2
    exact ⟨div_nonneg hsum0 hlen.le, (div_le_one hlen).mpr hsum1⟩

/-- **C9**: every `RoutingDecision` produced by `analyze_query` has
confidence in `[0, 1]`; every `OrchestratedResponse` returned by
`orchestrate` has confidence in `[0, 1]` (the emergency path's `1.0`, the
success path's average of the specialists' Pydantic-validated confidences,
and the error path's `0.0`); and on every path `agents_consulted` and
`agent_responses` have the same length. -/
theorem confidence_invariants (env : Env) (st : OrchState) (q : String) (ctx : Option Ctx) :
    0 ≤ (analyze_query env st q ctx).1.confidence ∧
    (analyze_query env st q ctx).1.confidence ≤ 1 ∧
    0 ≤ (orchestrate env st q ctx).1.confidence ∧
    (orchestrate env st q ctx).1.confidence ≤ 1 ∧
    (orchestrate env st q ctx).1.agents_consulted.length =
      (orchestrate env st q ctx).1.agent_responses.length := by
  obtain ⟨hd0, hd1⟩ := analyzeDecision_confidence_bounds env q ctx
  rw [analyze_query_decision]
  refine ⟨hd0, hd1, ?_⟩
  unfold orchestrate
  dsimp only
  split
  · exact ⟨by norm_num, by norm_num, rfl⟩
  · split
    next rs st1 heq =>
      have hv := runExecution_ok_confidence env _ _ q ctx rs st1 heq
      have hb := avg_confidence_bounds rs hv
      exact ⟨hb.1, hb.2, by simp⟩
    next e st1 heq => exact ⟨le_refl 0, by norm_num, rfl⟩

theorem parallelOutcomes_length (env : Env) (qq : String) (c : Option Ctx) :
    ∀ (l : List String) (st : OrchState),
      (parallelOutcomes env qq c l st).1.length + (parallelOutcomes env qq c l st).2.1.length
        = l.length := by
  intro l
  induction l with
  | nil => intro st; rfl
  | cons n rest ih =>
    intro st
    unfold parallelOutcomes
    cases hx : execute_single_agent env st n qq c with
    | mk res st' =>
      cases res with
      | ok r =>
        dsimp only
        have h2 := ih st'
        simp only [List.length_cons]
        rw [Nat.add_right_comm, h2]
      | error e =>
        dsimp only
        have h2 := ih st'
        simp only [List.length_cons]
        rw [← Nat.add_assoc, h2]

/-- **C4**: with the routing decision in parallel mode over the `N`
dispatched names `[primary] + additional`, and `k` the number of failed
invocations: the successes and failures partition the dispatched set
(`N − k` successes); when `1 ≤ k` but at least one succeeds,
`execute_parallel` returns exactly the successful subset and the final
`OrchestratedResponse` has `error = None` and `agents_consulted` of length
`N − k`; when all fail, `execute_parallel` raises the aggregate error
combining all `k = N` failure messages and the final response carries that
error with `agents_consulted = []`. -/
theorem parallel_partial_failure (env : Env) (st : OrchState) (q : String) (ctx : Option Ctx)
    (hmode : (analyzeDecision env q ctx).execution_mode = .parallel)
    (hurg : (analyzeDecision env q ctx).urgency_level ≠ .emergency) :
    let stU : OrchState := { st with memory := add_user_message st.memory q }
    let stA := (analyze_query env stU q ctx).2
    let names := (analyzeDecision env q ctx).primary_agent ::
                 (analyzeDecision env q ctx).additional_agents
    let responses := (parallelOutcomes env q ctx names stA).1
    let errors := (parallelOutcomes env q ctx names stA).2.1
    responses.length + errors.length = names.length ∧
    (1 ≤ errors.length → responses ≠ [] →
      (execute_parallel env stA names q ctx).1 = .ok responses ∧
      (orchestrate env st q ctx).1.error = none ∧
      (orchestrate env st q ctx).1.agents_consulted.length = names.length - errors.length) ∧
    (responses = [] → errors ≠ [] →
      (execute_parallel env stA names q ctx).1 =
        .error ("All parallel agents failed: " ++ String.intercalate "; " errors) ∧
      (orchestrate env st q ctx).1.error =
        some ("All parallel agents failed: " ++ String.intercalate "; " errors) ∧
      (orchestrate env st q ctx).1.agents_consulted = []) := by
  dsimp only
  have hlen := parallelOutcomes_length env q ctx
    ((analyzeDecision env q ctx).primary_agent :: (analyzeDecision env q ctx).additional_agents)
    ((analyze_query env { st with memory := add_user_message st.memory q } q ctx).2)
  refine ⟨hlen, ?_, ?_⟩
  · intro herr hne
    have hcond : ¬(((parallelOutcomes env q ctx
        ((analyzeDecision env q ctx).primary_agent ::
          (analyzeDecision env q ctx).additional_agents)
        ((analyze_query env { st with memory := add_user_message st.memory q } q ctx).2)).1.isEmpty
          = true) ∧
        ¬ ((parallelOutcomes env q ctx
        ((analyzeDecision env q ctx).primary_agent ::
          (analyzeDecision env q ctx).additional_agents)
        ((analyze_query env { st with memory := add_user_message st.memory q } q ctx).2)).2.1.isEmpty
          = true)) := by
      intro hc
      exact hne (List.isEmpty_iff.mp hc.1)
    have hpar : execute_parallel env
        ((analyze_query env { st with memory := add_user_message st.memory q } q ctx).2)
        ((analyzeDecision env q ctx).primary_agent ::
          (analyzeDecision env q ctx).additional_agents) q ctx =
        (.ok (parallelOutcomes env q ctx
            ((analyzeDecision env q ctx).primary_agent ::
              (analyzeDecision env q ctx).additional_agents)
            ((analyze_query env { st with memory := add_user_message st.memory q } q ctx).2)).1,
         (parallelOutcomes env q ctx
            ((analyzeDecision env q ctx).primary_agent ::
              (analyzeDecision env q ctx).additional_agents)
            ((analyze_query env { st with memory := add_user_message st.memory q } q ctx).2)).2.2) := by
      unfold execute_parallel
      dsimp only
      rw [if_neg hcond]
    have hrun : runExecution env
        ((analyze_query env { st with memory := add_user_message st.memory q } q ctx).2)
        (analyzeDecision env q ctx) q ctx =
        (.ok (parallelOutcomes env q ctx
            ((analyzeDecision env q ctx).primary_agent ::
              (analyzeDecision env q ctx).additional_agents)
            ((analyze_query env { st with memory := add_user_message st.memory q } q ctx).2)).1,
         (parallelOutcomes env q ctx
            ((analyzeDecision env q ctx).primary_agent ::
              (analyzeDecision env q ctx).additional_agents)
            ((analyze_query env { st with memory := add_user_message st.memory q } q ctx).2)).2.2) := by
      unfold runExecution
      rw [hmode]
      exact hpar
    refine ⟨congrArg Prod.fst hpar, ?_, ?_⟩
    · unfold orchestrate
      dsimp only
      rw [analyze_query_decision, if_neg hurg, hrun]
    · unfold orchestrate
      dsimp only
      rw [analyze_query_decision, if_neg hurg, hrun]
      dsimp only
      simp only [List.length_map]
      omega
  · intro hresp herr
    have hcond : (((parallelOutcomes env q ctx
        ((analyzeDecision env q ctx).primary_agent ::
          (analyzeDecision env q ctx).additional_agents)
        ((analyze_query env { st with memory := add_user_message st.memory q } q ctx).2)).1.isEmpty
          = true) ∧
        ¬ ((parallelOutcomes env q ctx
        ((analyzeDecision env q ctx).primary_agent ::
          (analyzeDecision env q ctx).additional_agents)
        ((analyze_query env { st with memory := add_user_message st.memory q } q ctx).2)).2.1.isEmpty
          = true)) := by
      constructor
      · rw [hresp]; rfl
      · intro hc
        exact herr (List.isEmpty_iff.mp hc)
    have hpar : execute_parallel env
        ((analyze_query env { st with memory := add_user_message st.memory q } q ctx).2)
        ((analyzeDecision env q ctx).primary_agent ::
          (analyzeDecision env q ctx).additional_agents) q ctx =
        (.error ("All parallel agents failed: " ++ String.intercalate "; "
            (parallelOutcomes env q ctx
              ((analyzeDecision env q ctx).primary_agent ::
                (analyzeDecision env q ctx).additional_agents)
              ((analyze_query env { st with memory := add_user_message st.memory q } q ctx).2)).2.1),
         (parallelOutcomes env q ctx
            ((analyzeDecision env q ctx).primary_agent ::
              (analyzeDecision env q ctx).additional_agents)
            ((analyze_query env { st with memory := add_user_message st.memory q } q ctx).2)).2.2) := by
      unfold execute_parallel
      dsimp only
      rw [if_pos hcond]
    have hrun : runExecution env
        ((analyze_query env { st with memory := add_user_message st.memory q } q ctx).2)
        (analyzeDecision env q ctx) q ctx =
        (.error ("All parallel agents failed: " ++ String.intercalate "; "
            (parallelOutcomes env q ctx
              ((analyzeDecision env q ctx).primary_agent ::
                (analyzeDecision env q ctx).additional_agents)
              ((analyze_query env { st with memory := add_user_message st.memory q } q ctx).2)).2.1),
         (parallelOutcomes env q ctx
            ((analyzeDecision env q ctx).primary_agent ::
              (analyzeDecision env q ctx).additional_agents)
            ((analyze_query env { st with memory := add_user_message st.memory q } q ctx).2)).2.2) := by
      unfold runExecution
      rw [hmode]
      exact hpar
    refine ⟨congrArg Prod.fst hpar, ?_, ?_⟩
    · unfold orchestrate
      dsimp only
      rw [analyze_query_decision, if_neg hurg, hrun]
    · unfold orchestrate
      dsimp only
      rw [analyze_query_decision, if_neg hurg, hrun]

theorem parallel_partial_failure_witness :
    ((analyzeDecision envParallelFixture "hello" none).execution_mode = .parallel ∧
     (analyzeDecision envParallelFixture "hello" none).urgency_level ≠ .emergency ∧
     (orchestrate envParallelFixture OrchState.init "hello" none).1.error = none) ∧
    ((analyzeDecision envAllFailFixture "hello" none).execution_mode = .parallel ∧
     (orchestrate envAllFailFixture OrchState.init "hello" none).1.agents_consulted = []) :=
  ⟨⟨by decide, by decide,
    ((parallel_partial_failure envParallelFixture OrchState.init "hello" none (by decide)
        (by decide)).2.1 (by decide) (by decide)).2.1⟩,
   ⟨by decide,
    ((parallel_partial_failure envAllFailFixture OrchState.init "hello" none (by decide)
        (by decide)).2.2 (by decide) (by decide)).2.2⟩⟩

theorem seqRun_ok_parts (env : Env) (qq : String) :
    ∀ (l : List String) (st : OrchState) (ctx : Ctx) (rs : List AgentResponse),
      (seqRun env qq l st ctx).result = .ok rs →
      rs.length = l.length ∧
      (seqRun env qq l st ctx).trace.length = l.length ∧
      (seqRun env qq l st ctx).trace.map Prod.fst = l ∧
      (seqRun env qq l st ctx).finalCtx = injectOutputs ctx (l.zip rs) := by
  intro l
  induction l with
  | nil =>
    intro st ctx rs h
    simp only [seqRun] at h ⊢
    injection h with h
    subst h
    exact ⟨rfl, rfl, rfl, rfl⟩
  | cons n rest ih =>
    intro st ctx rs h
    unfold seqRun at h ⊢
    cases hx : execute_single_agent env st n qq (some ctx) with
    | mk res st' =>
      rw [hx] at h
      cases res with
      | error e => simp at h
      | ok r0 =>
        dsimp only at h ⊢
        cases hs : (seqRun env qq rest st'
            (ctxSet (ctxSet ctx (n ++ "_output") (.vStr r0.output)) (n ++ "_confidence")
              (.vNum r0.confidence))).result with
        | error e => rw [hs] at h; simp [Except.map] at h
        | ok rsx =>
          rw [hs] at h
          simp only [Except.map, Except.ok.injEq] at h
          subst h
          obtain ⟨ih1, ih2, ih3, ih4⟩ := ih st' _ rsx hs
          refine ⟨by simp [ih1], by simp [ih2], by simp [ih3], ?_⟩
          rw [ih4]
          rfl

theorem seqRun_trace_entry (env : Env) (qq : String) :
    ∀ (l : List String) (st : OrchState) (ctx : Ctx) (rs : List AgentResponse),
      (seqRun env qq l st ctx).result = .ok rs →
      ∀ m, (seqRun env qq l st ctx).trace.get? m =
        (l.get? m).map (fun nm => (nm, injectOutputs ctx ((l.take m).zip (rs.take m)))) := by
  intro l
  induction l with
  | nil =>
    intro st ctx rs h m
    simp [seqRun]
  | cons n rest ih =>
    intro st ctx rs h m
    unfold seqRun at h ⊢
    cases hx : execute_single_agent env st n qq (some ctx) with
    | mk res st' =>
      rw [hx] at h
      cases res with
      | error e => simp at h
      | ok r0 =>
        dsimp only at h ⊢
        cases hs : (seqRun env qq rest st'
            (ctxSet (ctxSet ctx (n ++ "_output") (.vStr r0.output)) (n ++ "_confidence")
              (.vNum r0.confidence))).result with
        | error e => rw [hs] at h; simp [Except.map] at h
        | ok rsx =>
          rw [hs] at h
          simp only [Except.map, Except.ok.injEq] at h
          subst h
          cases m with
          | zero => rfl
          | succ m' =>
            have := ih st' _ rsx hs m'
            simpa using this

/-- **C5 (amended)**: the literal sequential-mode context claim holds
provided the pipeline's agent names are pairwise distinct and no key of the
initial context has the form `"<a>_output"` or `"<a>_confidence"` for a
pipeline agent `a`.  (Without either proviso the in-place dict writes
overwrite the colliding entry — see the counterexample.) -/
theorem seq_pipeline_context (env : Env) (st : OrchState) (pipeline : List String)
    (q : String) (ctx0 : Ctx)
    (hnodup : pipeline.Nodup)
    (hdisj : ∀ a ∈ pipeline, ctxGet ctx0 (a ++ "_output") = none ∧
             ctxGet ctx0 (a ++ "_confidence") = none) :
    SeqContextClaim env st pipeline q ctx0 := by
  intro rs hok
  rw [execute_sequential.eq_def] at hok ⊢
  dsimp only at hok ⊢
  set ctx1 : Ctx := if ctx0.isEmpty then [] else ctx0 with hctx1
  have hdisj1 : ∀ a ∈ pipeline, ctxGet ctx1 (a ++ "_output") = none ∧
      ctxGet ctx1 (a ++ "_confidence") = none := by
    intro a ha
    rw [hctx1]
    split
    · exact ⟨rfl, rfl⟩
    · exact hdisj a ha
  have hpres1 : ∀ k v, ctxGet ctx0 k = some v → ctxGet ctx1 k = some v := by
    intro k v hkv
    rw [hctx1]
    split
    next he =>
      rw [List.isEmpty_iff.mp he] at hkv
      cases hkv
    next he => exact hkv
  obtain ⟨hlen, htlen, hnames, _⟩ := seqRun_ok_parts env q pipeline st ctx1 rs hok
  have hentry := seqRun_trace_entry env q pipeline st ctx1 rs hok
  refine ⟨hnames, ?_, ?_⟩
  · intro i hi j hj hji
    have hi2 : i + 1 < pipeline.length := htlen ▸ hi
    have hj2 : j < rs.length := by omega
    -- the context passed at position i+1
    have hget : (seqRun env q pipeline st ctx1).trace.get ⟨i + 1, hi⟩ =
        (pipeline.get ⟨i + 1, hi2⟩,
         injectOutputs ctx1 ((pipeline.take (i + 1)).zip (rs.take (i + 1)))) := by
      have h1 := hentry (i + 1)
      rw [List.get?_eq_get hi, List.get?_eq_get hi2] at h1
      simpa using h1
    rw [hget]
    dsimp only
    -- the pair at position j of the zipped prefix
    have hzlen : ((pipeline.take (i + 1)).zip (rs.take (i + 1))).length = i + 1 := by
      simp only [List.length_zip, List.length_take]
      omega
    have hjz : j < ((pipeline.take (i + 1)).zip (rs.take (i + 1))).length := by omega
    have hpair : ((pipeline.take (i + 1)).zip (rs.take (i + 1))).get ⟨j, hjz⟩ =
        (pipeline.get ⟨j, hj⟩, rs.get ⟨j, hj2⟩) := by
      simp [List.get_eq_getElem, List.getElem_zip, List.getElem_take]
    have hmem : (pipeline.get ⟨j, hj⟩, rs.get ⟨j, hj2⟩) ∈
        (pipeline.take (i + 1)).zip (rs.take (i + 1)) := by
      rw [← hpair]
      exact List.get_mem _ _ hjz
    have hnd : (((pipeline.take (i + 1)).zip (rs.take (i + 1))).map Prod.fst).Nodup := by
      rw [List.map_fst_zip]
      · exact List.Nodup.sublist (List.take_sublist _ _) hnodup
      · simp only [List.length_take]
        omega
    have hlook := injectOutputs_lookup _ ctx1 hnd _ _ hmem
    rw [List.get?_eq_get hj2]
    exact ⟨hlook.1, hlook.2⟩
  · intro i hi k v hkv
    have hi2 : i < pipeline.length := htlen ▸ hi
    have hget : ((seqRun env q pipeline st ctx1).trace.get ⟨i, hi⟩).2 =
        injectOutputs ctx1 ((pipeline.take i).zip (rs.take i)) := by
      have h1 := hentry i
      rw [List.get?_eq_get hi, List.get?_eq_get hi2] at h1
      have := congrArg (fun o => o.map Prod.snd) h1
      simpa using this
    rw [hget]
    have hk : ∀ p ∈ (pipeline.take i).zip (rs.take i),
        k ≠ p.1 ++ "_output" ∧ k ≠ p.1 ++ "_confidence" := by
      intro p hp
      have hp1 : p.1 ∈ pipeline := by
        obtain ⟨a, b⟩ := p
        have hz := List.of_mem_zip hp
        exact List.mem_of_mem_take hz.1
      constructor
      · intro he
        rw [he] at hkv
        rw [(hdisj p.1 hp1).1] at hkv
        cases hkv
      · intro he
        rw [he] at hkv
        rw [(hdisj p.1 hp1).2] at hkv
        cases hkv
    rw [injectOutputs_preserve _ _ _ hk]
    exact hpres1 k v hkv

/-- **C5 (counterexample)**: the claim as stated — which demands, in
addition to the pipeline-injected keys, that the context passed to every
later agent contain ALL entries of the initial context — is false when an
initial-context key collides with an injected `"<agent>_output"` key: the
dict write of the pipeline overwrites the caller's entry in place.  Here the
initial context binds `"A_output"` to `"orig"`, agent `A` writes its own
output `"out-A"` over it, and the context passed to `B` no longer contains
the initial entry. -/
theorem seq_context_claim_counterexample :
    ¬ SeqContextClaim envSeqFixture OrchState.init ["A", "B"] "q"
        [("A_output", PyVal.vStr "orig")] := by
  intro h
  have h1 := h seqFixtureResponses (by decide)
  have h2 := h1.2.2 1 (by decide) "A_output" (PyVal.vStr "orig") (by decide)
  exact absurd h2 (by decide)

theorem seq_pipeline_context_witness :
    (["A", "B"] : List String).Nodup ∧
    (∀ a ∈ (["A", "B"] : List String),
      ctxGet [("x", PyVal.vStr "1")] (a ++ "_output") = none ∧
      ctxGet [("x", PyVal.vStr "1")] (a ++ "_confidence") = none) ∧
    (execute_sequential envSeqFixture OrchState.init ["A", "B"] "q"
        (some [("x", PyVal.vStr "1")])).trace.map Prod.fst = ["A", "B"] :=
  ⟨by decide, by decide,
   (seq_pipeline_context envSeqFixture OrchState.init ["A", "B"] "q"
      [("x", PyVal.vStr "1")] (by decide) (by decide) seqFixtureResponses (by decide)).1⟩

/-- **C10**: `execute_sequential` mutates the caller-supplied context
dictionary in place.  `context or {}` aliases the caller's dict exactly when
it is non-empty, so after a successful pipeline run the dictionary the
caller holds (`callerCtxAfterSequential`) IS the accumulated pipeline
context — not a private copy — and it now contains the keys
`"<a>_output"` and `"<a>_confidence"` for every pipeline agent `a`. -/
theorem seq_mutates_caller_context (env : Env) (st : OrchState) (pipeline : List String)
    (q : String) (ctx : Ctx) (rs : List AgentResponse)
    (hne : ctx ≠ [])
    (hok : (execute_sequential env st pipeline q (some ctx)).result = .ok rs) :
    callerCtxAfterSequential ctx (execute_sequential env st pipeline q (some ctx)).finalCtx
      = (execute_sequential env st pipeline q (some ctx)).finalCtx ∧
    ∀ a ∈ pipeline,
      (ctxGet (callerCtxAfterSequential ctx
        (execute_sequential env st pipeline q (some ctx)).finalCtx) (a ++ "_output")).isSome ∧
      (ctxGet (callerCtxAfterSequential ctx
        (execute_sequential env st pipeline q (some ctx)).finalCtx)
          (a ++ "_confidence")).isSome := by
  have hempty : ctx.isEmpty = false := by
    cases hc : ctx.isEmpty
    · rfl
    · exact absurd (List.isEmpty_iff.mp hc) hne
  have hcaller : callerCtxAfterSequential ctx
      (execute_sequential env st pipeline q (some ctx)).finalCtx
        = (execute_sequential env st pipeline q (some ctx)).finalCtx := by
    unfold callerCtxAfterSequential
    rw [hempty]
    simp
  refine ⟨hcaller, ?_⟩
  intro a ha
  rw [hcaller]
  rw [execute_sequential.eq_def] at hok ⊢
  dsimp only at hok ⊢
  rw [hempty] at hok ⊢
  simp only [Bool.false_eq_true, if_false] at hok ⊢
  obtain ⟨hlen, _, _, hfin⟩ := seqRun_ok_parts env q pipeline st ctx rs hok
  rw [hfin]
  apply injectOutputs_mem_isSome
  rw [List.map_fst_zip]
  · exact ha
  · omega

theorem seq_mutates_caller_context_witness :
    ([("x", PyVal.vStr "1")] : Ctx) ≠ [] ∧
    (execute_sequential envSeqFixture OrchState.init ["A", "B"] "q"
        (some [("x", PyVal.vStr "1")])).result = .ok seqFixtureResponses ∧
    (ctxGet (callerCtxAfterSequential [("x", PyVal.vStr "1")]
        (execute_sequential envSeqFixture OrchState.init ["A", "B"] "q"
          (some [("x", PyVal.vStr "1")])).finalCtx) ("A" ++ "_output")).isSome = true :=
  ⟨by decide, by decide,
   (((seq_mutates_caller_context envSeqFixture OrchState.init ["A", "B"] "q"
        [("x", PyVal.vStr "1")] seqFixtureResponses (by decide) (by decide)).2 "A"
        (by decide)).1 : _)⟩

end PatientPal
